import Mathlib

/-!
# WiFi performance tracker: scene state machine and dynamic TWT manager

A shallow embedding of `scenes_fsm.c` and `dynamic_twt_manager.c`.

* Unsigned machine integers are natural numbers; 64-bit additions wrap
  explicitly (`add64`), the 32-bit record field truncates explicitly (`to_u32`).
* C arrays are functions from the index; only the indices the C code reads are
  ever applied.
* Functions that write through a pointer return the updated structure next to
  their C return value.
* Calls through the client's function pointers are recorded in a trace, so that
  "is called" and "is called once" become statements about that trace.
-/

namespace WlanPtracker

/-! ## Constants of `core.h` -/

/-- Modelled from the spec: the scene enumeration of `core.h` (not among the
sources), "Idle, Web, Streaming, LowLatency, Throughput, ranked in that order
(Idle = rank 0)"; the order is also that of the tables `conditions` and
`dytwt_actions`. -/
def WLAN_SCENE_IDLE : Nat := 0

/-- Modelled from the spec: scene enumeration of `core.h`, rank 1. -/
def WLAN_SCENE_WEB : Nat := 1

/-- Modelled from the spec: scene enumeration of `core.h`, rank 2. -/
def WLAN_SCENE_YOUTUBE : Nat := 2

/-- Modelled from the spec: scene enumeration of `core.h`, rank 3. -/
def WLAN_SCENE_LOW_LATENCY : Nat := 3

/-- Modelled from the spec: scene enumeration of `core.h`, rank 4. -/
def WLAN_SCENE_TPUT : Nat := 4

/-- Modelled from the spec: the scene count closing the scene enumeration. -/
def WLAN_SCENE_MAX : Nat := 5

/-- Modelled from the spec: the number of entries of the condition table,
one per scene (`conditions[FSM_STATE_MAX]` has five initialisers). -/
def FSM_STATE_MAX : Nat := WLAN_SCENE_MAX

/-- Modelled from the spec: the traffic classes of `core.h`; their numbering is
the row order of `dscp_trans` in `main.c` (BE, BK, VI, VO). -/
def WMM_AC_BE : Nat := 0

/-- Modelled from the spec: traffic class 1 (row `AC_BK` of `dscp_trans`). -/
def WMM_AC_BK : Nat := 1

/-- Modelled from the spec: traffic class 2 (row `AC_VI` of `dscp_trans`). -/
def WMM_AC_VI : Nat := 2

/-- Modelled from the spec: traffic class 3 (row `AC_VO` of `dscp_trans`). -/
def WMM_AC_VO : Nat := 3

/-- Modelled from the spec: the number of traffic classes; index `WMM_AC_MAX`
of the rate arrays holds the precomputed "all classes combined" rate. -/
def WMM_AC_MAX : Nat := 4

/-- Modelled from the spec: the full-mask sentinel of `core.h`, all four class
bits set. -/
def WMM_AC_ALL_MASK : Nat := 0xF

/-- Modelled from the spec: event reasons, in the order of the spec's list and
of the table `reason2str` ("tp", "scene_change", "scene_prep", "suspend",
"sta_change"). -/
def WLAN_PTRACKER_NOTIFY_TP : Nat := 0

/-- Modelled from the spec: event reason 1, `reason2str[1] = "scene_change"`. -/
def WLAN_PTRACKER_NOTIFY_SCENE_CHANGE : Nat := 1

/-- Modelled from the spec: event reason 2, `reason2str[2] = "scene_prep"`. -/
def WLAN_PTRACKER_NOTIFY_SCENE_CHANGE_PREPARE : Nat := 2

/-- Modelled from the spec: event reason 3, `reason2str[3] = "suspend"`. -/
def WLAN_PTRACKER_NOTIFY_SUSPEND : Nat := 3

/-- Modelled from the spec: event reason 4, `reason2str[4] = "sta_change"`. -/
def WLAN_PTRACKER_NOTIFY_STA_CHANGE : Nat := 4

/-- Modelled from the spec: the number of event reasons. -/
def WLAN_PTRACKER_NOTIFY_MAX : Nat := 5

/-- The compiler constant `__INT_MAX__` (32-bit `int`). -/
def INT_MAX : Nat := 2147483647

/-- The macro `BIT(j)`. -/
def BIT (j : Nat) : Nat := 1 <<< j

/-- Addition of two `u64` values. -/
def add64 (a b : Nat) : Nat := (a + b) % 18446744073709551616

/-- Conversion of a wider unsigned value to `u32`. -/
def to_u32 (a : Nat) : Nat := a % 4294967296

/-! ## Data model of the classifier -/

/-- The `struct wlan_state_condition`: thresholds are in Kbits/second. -/
structure wlan_state_condition where
  scene : Nat
  ac_mask : Nat
  min_tp_threshold : Nat
  max_tp_threshold : Nat
deriving DecidableEq, Repr

/-- The part of `struct tp_monitor_stats` the classifier reads: `tx j` is
`stats->tx[j].rate`, `rx j` is `stats->rx[j].rate`, in bits/second, for
`j = 0 .. WMM_AC_MAX`. -/
structure tp_monitor_stats where
  tx : Nat → Nat
  rx : Nat → Nat

/-- The `struct wlan_scene_event` without its lock. -/
structure wlan_scene_event where
  state : Nat
  src : Nat
  dst : Nat
  reason : Nat
  rate : Nat
deriving DecidableEq, Repr

/-! ## `scenes_check` and `scenes_condition_get` -/

/-- The function `scenes_check`: the boolean result and the message, whose
`rate` is overwritten on a match. -/
def scenes_check (rate : Nat) (cond : wlan_state_condition) (msg : wlan_scene_event) :
    Bool × wlan_scene_event :=
  let krate := rate / 1000
  if cond.min_tp_threshold ≤ krate ∧ krate < cond.max_tp_threshold then
    (true, { msg with rate := rate })
  else
    (false, msg)

/-- The inner loop of `scenes_condition_get`, `for (j = 0; j < WMM_AC_MAX; j++)`,
with `n` iterations left: `some msg` when the loop body returns `cond->scene`,
`none` when the loop runs to its end. -/
def scenes_condition_ac_loop (cond : wlan_state_condition) (stats : tp_monitor_stats)
    (msg : wlan_scene_event) : Nat → Nat → Nat → Nat → Option wlan_scene_event
  | 0, _, _, _ => none
  | n + 1, j, total_tx, total_rx =>
    let total_tx := if cond.ac_mask &&& BIT j ≠ 0 then add64 total_tx (stats.tx j) else total_tx
    let total_rx := if cond.ac_mask &&& BIT j ≠ 0 then add64 total_rx (stats.rx j) else total_rx
    match scenes_check (add64 total_tx total_rx) cond msg with
    | (true, msg) => some msg
    | (false, _) => scenes_condition_ac_loop cond stats msg n (j + 1) total_tx total_rx

/-- The body of the outer loop of `scenes_condition_get` for one condition:
`some msg` when it returns `cond->scene`, `none` when it goes on. -/
def scenes_condition_try (cond : wlan_state_condition) (stats : tp_monitor_stats)
    (msg : wlan_scene_event) : Option wlan_scene_event :=
  if cond.ac_mask = WMM_AC_ALL_MASK then
    match scenes_check (add64 (stats.tx WMM_AC_MAX) (stats.rx WMM_AC_MAX)) cond msg with
    | (true, msg) => some msg
    | (false, _) => none
  else
    scenes_condition_ac_loop cond stats msg WMM_AC_MAX 0 0 0

/-- The outer loop of `scenes_condition_get`,
`for (i = FSM_STATE_MAX - 1; i >= 0; i--)`, with the indices below `n` left:
`some (scene, msg)` when a condition returns, `none` when the loop falls
through to `return fsm->msg.state`. -/
def scenes_condition_scan (conditions : Nat → wlan_state_condition) (stats : tp_monitor_stats)
    (msg : wlan_scene_event) : Nat → Option (Nat × wlan_scene_event)
  | 0 => none
  | i + 1 =>
    match scenes_condition_try (conditions i) stats msg with
    | some msg => some ((conditions i).scene, msg)
    | none => scenes_condition_scan conditions stats msg i

/-- The function `scenes_condition_get`: the returned scene and the message. -/
def scenes_condition_get (conditions : Nat → wlan_state_condition) (stats : tp_monitor_stats)
    (msg : wlan_scene_event) : Nat × wlan_scene_event :=
  match scenes_condition_scan conditions stats msg FSM_STATE_MAX with
  | some r => r
  | none => (msg.state, msg)

/-! ## The matching relation of the specification -/

/-- A rate in bits/second lies in the interval of a condition:
`rate / 1000` is in `[min, max)`. -/
def in_interval (cond : wlan_state_condition) (rate : Nat) : Prop :=
  cond.min_tp_threshold ≤ rate / 1000 ∧ rate / 1000 < cond.max_tp_threshold

instance (cond : wlan_state_condition) (rate : Nat) : Decidable (in_interval cond rate) :=
  inferInstanceAs (Decidable (_ ∧ _))

/-- The sum of the tx and rx rates of the selected classes among `0 .. j-1`. -/
def selected_sum (mask : Nat) (stats : tp_monitor_stats) : Nat → Nat
  | 0 => 0
  | j + 1 =>
    selected_sum mask stats j + (if mask &&& BIT j ≠ 0 then stats.tx j + stats.rx j else 0)

/-- The running sum after class `j` has been looked at, as a `u64`. -/
def running_sum (mask : Nat) (stats : tp_monitor_stats) (j : Nat) : Nat :=
  selected_sum mask stats (j + 1) % 18446744073709551616

/-- The combined rate `tx_all + rx_all`, as a `u64`. -/
def combined_rate (stats : tp_monitor_stats) : Nat :=
  (stats.tx WMM_AC_MAX + stats.rx WMM_AC_MAX) % 18446744073709551616

/-- A rate that a condition looks at: the combined rate for a full mask, a
running sum of the selected classes otherwise. -/
def candidate_rate (cond : wlan_state_condition) (stats : tp_monitor_stats) (rate : Nat) : Prop :=
  if cond.ac_mask = WMM_AC_ALL_MASK then rate = combined_rate stats
  else ∃ j, j < WMM_AC_MAX ∧ rate = running_sum cond.ac_mask stats j

/-- A condition matches a throughput snapshot. -/
def cond_matches (cond : wlan_state_condition) (stats : tp_monitor_stats) : Prop :=
  if cond.ac_mask = WMM_AC_ALL_MASK then in_interval cond (combined_rate stats)
  else ∃ j, j < WMM_AC_MAX ∧ in_interval cond (running_sum cond.ac_mask stats j)

instance (cond : wlan_state_condition) (stats : tp_monitor_stats) :
    Decidable (cond_matches cond stats) := by
  unfold cond_matches; infer_instance

/-! ## The classifier: `scenes_fsm.c` -/

/-- The built-in table `conditions[FSM_STATE_MAX]`; the array has the five
entries `0 .. 4`. -/
def conditions : Nat → wlan_state_condition
  | 0 => { scene := WLAN_SCENE_IDLE, ac_mask := WMM_AC_ALL_MASK,
           min_tp_threshold := 0, max_tp_threshold := 1000 }
  | 1 => { scene := WLAN_SCENE_WEB, ac_mask := WMM_AC_ALL_MASK,
           min_tp_threshold := 1000, max_tp_threshold := 10000 }
  | 2 => { scene := WLAN_SCENE_YOUTUBE, ac_mask := WMM_AC_ALL_MASK,
           min_tp_threshold := 10000, max_tp_threshold := 50000 }
  | 3 => { scene := WLAN_SCENE_LOW_LATENCY, ac_mask := BIT WMM_AC_VO,
           min_tp_threshold := 1000, max_tp_threshold := INT_MAX }
  | 4 => { scene := WLAN_SCENE_TPUT, ac_mask := WMM_AC_ALL_MASK,
           min_tp_threshold := 50000, max_tp_threshold := INT_MAX }
  | _ => { scene := 0, ac_mask := 0, min_tp_threshold := 0, max_tp_threshold := 0 }

/-- The `struct wlan_ptracker_fsm`. `event` is the counter of the completion
`fsm->event`: `complete` adds one, `wait_for_completion` needs it positive and
takes one. `fsm_thread` tells whether the worker pointer is non-null. -/
structure wlan_ptracker_fsm where
  reset_cnt : Int
  confirm : Bool
  event : Nat
  msg : wlan_scene_event
  fsm_thread : Bool
  conditions : Nat → wlan_state_condition

/-- The macro `RESET_THRESHOLD`. -/
def RESET_THRESHOLD : Int := 1

/-- The value of an `int` after an arithmetic step (two's complement). -/
def wrap_s32 (x : Int) : Int := (x + 2147483648) % 4294967296 - 2147483648

/-- The function `scenes_fsm_decision`; `tp` is the snapshot `core->tp` at the
time of the call, `type` the event that triggers the evaluation. -/
def scenes_fsm_decision (fsm : wlan_ptracker_fsm) (tp : tp_monitor_stats) (type : Nat) :
    wlan_ptracker_fsm :=
  if fsm.fsm_thread = false then fsm
  else
    let r := scenes_condition_get fsm.conditions tp fsm.msg
    let new_state := r.1
    let msg := r.2
    let reset_cnt :=
      if type = WLAN_PTRACKER_NOTIFY_SUSPEND then wrap_s32 (fsm.reset_cnt + 1) else fsm.reset_cnt
    let except : Bool :=
      if type = WLAN_PTRACKER_NOTIFY_SUSPEND then decide (Int.tmod reset_cnt RESET_THRESHOLD = 0)
      else false
    if new_state = msg.state ∧ type ≠ WLAN_PTRACKER_NOTIFY_STA_CHANGE then
      { fsm with msg := msg, reset_cnt := reset_cnt }
    else if new_state < msg.state ∧ except = false then
      { fsm with msg := msg, reset_cnt := reset_cnt }
    else
      { fsm with
        reset_cnt := 0
        msg := { msg with src := msg.state, dst := new_state, reason := type }
        event := fsm.event + 1 }

/-- One turn of the loop of `fsm_thread`. `call_chain event msg env` is the
dispatch `wlan_ptracker_call_chain(&core->notifier, event, core)`: the
subscribers read the message and update their own state `env`, and the
returned code is dropped by the worker. The result is `none` when the body does
not run: the worker leaves the loop (`kthread_should_stop`) or stays blocked in
`wait_for_completion`. -/
def fsm_thread_iter {σ : Type} (call_chain : Nat → wlan_scene_event → σ → σ × Int)
    (should_stop : Bool) (fsm : wlan_ptracker_fsm) (env : σ) : Option (wlan_ptracker_fsm × σ) :=
  if should_stop then none
  else if fsm.event = 0 then none
  else
    let fsm := { fsm with event := fsm.event - 1 }
    if fsm.confirm then
      let env := (call_chain WLAN_PTRACKER_NOTIFY_SCENE_CHANGE fsm.msg env).1
      some ({ fsm with msg := { fsm.msg with state := fsm.msg.dst }, confirm := false }, env)
    else
      let env := (call_chain WLAN_PTRACKER_NOTIFY_SCENE_CHANGE_PREPARE fsm.msg env).1
      some ({ fsm with confirm := true }, env)

/-- The function `scene_notifier_handler`: the three triggers go to
`scenes_fsm_decision`, every other event is left alone; it returns `NOTIFY_OK`. -/
def scene_notifier_handler (fsm : wlan_ptracker_fsm) (tp : tp_monitor_stats) (event : Nat) :
    wlan_ptracker_fsm × Int :=
  if event = WLAN_PTRACKER_NOTIFY_SUSPEND ∨ event = WLAN_PTRACKER_NOTIFY_STA_CHANGE
      ∨ event = WLAN_PTRACKER_NOTIFY_TP then
    (scenes_fsm_decision fsm tp event, 1)
  else
    (fsm, 1)

/-- The function `scenes_fsm_init`. `register_ret` is what
`wlan_ptracker_register_notifier` returns, `thread_err` the error of
`kthread_create` when it fails. -/
def scenes_fsm_init (fsm : wlan_ptracker_fsm) (register_ret : Int) (thread_err : Option Int) :
    wlan_ptracker_fsm × Int :=
  let fsm := { fsm with
    conditions := conditions
    reset_cnt := 0
    confirm := true
    msg := { fsm.msg with
      dst := WLAN_SCENE_IDLE, src := WLAN_SCENE_IDLE, state := WLAN_SCENE_IDLE } }
  if register_ret ≠ 0 then (fsm, register_ret)
  else
    let fsm := { fsm with event := 0 }
    match thread_err with
    | some err => ({ fsm with fsm_thread := false }, err)
    | none => ({ fsm with fsm_thread := true }, 0)

/-- The zeroed classifier, as `wlan_ptracker_core_init` leaves it after
`memset(core, 0, sizeof(*core))`; the null table pointer is never read. -/
def fsm_zero : wlan_ptracker_fsm :=
  { reset_cnt := 0, confirm := false, event := 0,
    msg := { state := 0, src := 0, dst := 0, reason := 0, rate := 0 },
    fsm_thread := false,
    conditions := fun _ => { scene := 0, ac_mask := 0, min_tp_threshold := 0,
                             max_tp_threshold := 0 } }

/-! ## Runs of the classifier -/

/-- What one wake of the worker puts on the bus: the event, the message the
subscribers see during the dispatch, and the message once the wake is over. -/
structure wake_record where
  event : Nat
  seen : wlan_scene_event
  after : wlan_scene_event
deriving DecidableEq, Repr

/-- A dispatch that only records the event and the message it carries. -/
def bus_record (event : Nat) (msg : wlan_scene_event)
    (log : List (Nat × wlan_scene_event)) : List (Nat × wlan_scene_event) × Int :=
  (log ++ [(event, msg)], 1)

/-- The steps of a run: a call of `scenes_fsm_decision` with the snapshot of
the moment, or the worker getting to run. -/
inductive fsm_input where
  | decision (tp : tp_monitor_stats) (type : Nat)
  | wake

/-- A classifier together with the log of its dispatches. -/
structure fsm_world where
  fsm : wlan_ptracker_fsm
  log : List wake_record

/-- One step of a run. A wake needs the worker to exist; a wake with nothing
to wait for leaves everything as it is. -/
def fsm_run_step (w : fsm_world) : fsm_input → fsm_world
  | .decision tp type => { w with fsm := scenes_fsm_decision w.fsm tp type }
  | .wake =>
    if w.fsm.fsm_thread then
      match fsm_thread_iter bus_record false w.fsm [] with
      | some (fsm, bus) =>
        { fsm := fsm, log := w.log ++ bus.map (fun e => ⟨e.1, e.2, fsm.msg⟩) }
      | none => w
    else w

/-- A run: the steps in order. -/
def fsm_run (w : fsm_world) (steps : List fsm_input) : fsm_world :=
  steps.foldl fsm_run_step w

/-- The world right after `scenes_fsm_init`. -/
def fsm_start (fsm : wlan_ptracker_fsm) (register_ret : Int) (thread_err : Option Int) :
    fsm_world :=
  { fsm := (scenes_fsm_init fsm register_ret thread_err).1, log := [] }

/-- A step is not a decision with reason `Suspend`. -/
def no_suspend : fsm_input → Prop
  | .decision _ type => type ≠ WLAN_PTRACKER_NOTIFY_SUSPEND
  | .wake => True

/-- A snapshot with the given combined tx and rx rates (bits/second) and no
per-class traffic. -/
def tp_combined (tx_all rx_all : Nat) : tp_monitor_stats :=
  { tx := fun j => if j = WMM_AC_MAX then tx_all else 0
    rx := fun j => if j = WMM_AC_MAX then rx_all else 0 }

/-- One throughput sample with the worker handling the armed wake before the
next sample. -/
def fsm_sample (w : fsm_world) (tp : tp_monitor_stats) : fsm_world :=
  fsm_run w [.decision tp WLAN_PTRACKER_NOTIFY_TP, .wake]

/-- The test of `scenes_fsm_decision` that lets a transition through. -/
def decision_arms (fsm : wlan_ptracker_fsm) (tp : tp_monitor_stats) (type : Nat) : Prop :=
  ¬ ((scenes_condition_get fsm.conditions tp fsm.msg).1 = fsm.msg.state
      ∧ type ≠ WLAN_PTRACKER_NOTIFY_STA_CHANGE) ∧
  ¬ ((scenes_condition_get fsm.conditions tp fsm.msg).1 < fsm.msg.state
      ∧ type ≠ WLAN_PTRACKER_NOTIFY_SUSPEND)

/-- The classifier after a successful `scenes_fsm_init` on the zeroed core. -/
def fsm_ready : wlan_ptracker_fsm := (scenes_fsm_init fsm_zero 0 none).1

/-- A classifier in the middle of its life: `Web` committed, a transition to
`Streaming` armed and one completion pending, the phase flag set. -/
def fsm_armed : wlan_ptracker_fsm :=
  { reset_cnt := 0, confirm := true, event := 1,
    msg := { state := WLAN_SCENE_WEB, src := WLAN_SCENE_WEB, dst := WLAN_SCENE_YOUTUBE,
             reason := WLAN_PTRACKER_NOTIFY_TP, rate := 20000000 },
    fsm_thread := true, conditions := conditions }

/-- A sample of 500 Kbits/second combined. -/
def tp_idle : tp_monitor_stats := tp_combined 250000 250000

/-- A sample of 5000 Kbits/second combined. -/
def tp_web : tp_monitor_stats := tp_combined 2500000 2500000

/-- A sample of 20000 Kbits/second combined. -/
def tp_youtube : tp_monitor_stats := tp_combined 10000000 10000000

/-- The property of the dispatch log of a run: the wakes alternate, starting
with the commit phase. At position `k` of the log `log` of the world `w`:
an even `k` is a SceneChange dispatch after which the committed state is the
dst of the message, an odd `k` is a SceneChangePrepare dispatch that leaves the
message alone; the first dispatch sees the state Idle; and the committed state
does not change between one wake and the next, or the end of the run. -/
def wake_ok (w : fsm_world) (k : Nat) (r : wake_record) : Prop :=
  (k % 2 = 0 → r.event = WLAN_PTRACKER_NOTIFY_SCENE_CHANGE
    ∧ r.after = { r.seen with state := r.seen.dst }) ∧
  (k % 2 = 1 → r.event = WLAN_PTRACKER_NOTIFY_SCENE_CHANGE_PREPARE ∧ r.after = r.seen) ∧
  (k = 0 → r.seen.state = WLAN_SCENE_IDLE) ∧
  (∀ nxt, w.log[k + 1]? = some nxt → nxt.seen.state = r.after.state) ∧
  (w.log[k + 1]? = none → w.fsm.msg.state = r.after.state)

/-- The invariant of the runs from `scenes_fsm_init`: the phase flag is set
exactly when an even number of wakes has run, and every entry of the log is as
`wake_ok` says. -/
def run_inv (w : fsm_world) : Prop :=
  (w.fsm.confirm = true ↔ w.log.length % 2 = 0) ∧
  (w.log = [] → w.fsm.msg.state = WLAN_SCENE_IDLE) ∧
  (∀ k r, w.log[k]? = some r → wake_ok w k r)

/-- A run of three armed transitions: up to Web, then two samples for
Streaming, each followed by the wake it arms. -/
def steps_three : List fsm_input :=
  [.decision tp_web WLAN_PTRACKER_NOTIFY_TP, .wake,
   .decision tp_youtube WLAN_PTRACKER_NOTIFY_TP, .wake,
   .decision tp_youtube WLAN_PTRACKER_NOTIFY_TP, .wake]

/-- The third dispatch of `steps_three`: the commit of Streaming. -/
def record_three : wake_record :=
  { event := WLAN_PTRACKER_NOTIFY_SCENE_CHANGE
    seen := { state := WLAN_SCENE_WEB, src := WLAN_SCENE_WEB, dst := WLAN_SCENE_YOUTUBE,
              reason := WLAN_PTRACKER_NOTIFY_TP, rate := 20000000 }
    after := { state := WLAN_SCENE_YOUTUBE, src := WLAN_SCENE_WEB, dst := WLAN_SCENE_YOUTUBE,
               reason := WLAN_PTRACKER_NOTIFY_TP, rate := 20000000 } }

/-- A sequence of throughput samples, each handled by the worker before the
next one arrives. -/
def fsm_samples (w : fsm_world) (tps : List tp_monitor_stats) : fsm_world :=
  tps.foldl fsm_sample w

/-- The world after the samples 500 and 5000 Kbits/second. -/
def scenario_two : fsm_world := fsm_samples (fsm_start fsm_zero 0 none) [tp_idle, tp_web]

/-- The world after the samples 500, 5000 and 20000 Kbits/second. -/
def scenario_three : fsm_world :=
  fsm_samples (fsm_start fsm_zero 0 none) [tp_idle, tp_web, tp_youtube]

/-- The world after the samples 500, 5000, 20000 and 20000 Kbits/second. -/
def scenario_four : fsm_world :=
  fsm_samples (fsm_start fsm_zero 0 none) [tp_idle, tp_web, tp_youtube, tp_youtube]

/-- The classifier once Web is committed: the sample 5000 Kbits/second and
its wake, from the start. -/
def fsm_web : wlan_ptracker_fsm := (fsm_samples (fsm_start fsm_zero 0 none) [tp_web]).fsm

/-! ## The policy consumer: `dynamic_twt_manager.c` -/

/-- The errno `EINVAL`. -/
def EINVAL : Int := 22

/-- The errno `ENOMEM`. -/
def ENOMEM : Int := 12

/-- The kernel's `NOTIFY_OK`: the subscriber is done, the dispatch goes on. -/
def NOTIFY_OK : Int := 1

/-- The enumerator `TWT_ACTION_SETUP`. -/
def TWT_ACTION_SETUP : Nat := 0

/-- The enumerator `TWT_ACTION_TEARDOWN`. -/
def TWT_ACTION_TEARDOWN : Nat := 1

/-- The enumerator `FEATURE_FLAG_TWT` of `debugfs.h`. -/
def FEATURE_FLAG_TWT : Nat := 0

/-- The macro `DYMAIC_TWT_CONFIG_ID`. -/
def DYMAIC_TWT_CONFIG_ID : Nat := 3

/-- The macro `TWT_WAKE_DURATION`. -/
def TWT_WAKE_DURATION : Nat := 8192

/-- The macro `TWT_IDLE_INTERVAL`. -/
def TWT_IDLE_INTERVAL : Nat := 512000

/-- The macro `TWT_WEB_INTERVAL`. -/
def TWT_WEB_INTERVAL : Nat := 106496

/-- The macro `TWT_YOUTUBE_INTERVAL`. -/
def TWT_YOUTUBE_INTERVAL : Nat := 10240

/-- The macro `DYTWT_RECORD_MAX`. -/
def DYTWT_RECORD_MAX : Nat := 50

/-- The `struct dytwt_setup_param`. -/
structure dytwt_setup_param where
  config_id : Nat
  nego_type : Nat
  trigger_type : Nat
  wake_duration : Nat
  wake_interval : Nat
deriving DecidableEq, Repr

/-- The `struct dytwt_cap`. -/
structure dytwt_cap where
  device_cap : Nat
  peer_cap : Nat
deriving DecidableEq, Repr

/-- The `struct dytwt_pwr_state`. -/
structure dytwt_pwr_state where
  awake : Nat
  asleep : Nat
deriving DecidableEq, Repr

/-- The `struct dytwt_scene_action`. -/
structure dytwt_scene_action where
  action : Nat
  param : dytwt_setup_param
deriving DecidableEq, Repr

/-- The `struct history_entry` of `debugfs.h`; the timestamp is a number. -/
structure history_entry where
  state : Nat
  valid : Bool
  ts : Nat
deriving DecidableEq, Repr

/-- The `struct dytwt_entry`: `rate` and `reason` are `u32`. -/
structure dytwt_entry where
  base : history_entry
  apply : Bool
  rate : Nat
  reason : Nat
  pwr : dytwt_pwr_state
deriving DecidableEq, Repr

/-- The `struct history_manager` of `debugfs.h`, holding slots of the
consumer's record type; name, lock and formatter are left out. -/
structure history_manager where
  cur : Nat
  round : Nat
  entry_count : Nat
  entries : List dytwt_entry
deriving DecidableEq, Repr

/-- The `struct dytwt_manager`; `dir` tells whether the debugfs directory
exists. -/
structure dytwt_manager where
  prev : Nat
  feature_flag : Nat
  state : Nat
  hm : Option history_manager
  dir : Bool
deriving DecidableEq, Repr

/-- The `struct dytwt_client_ops`: each operation is a function pointer that
may be null. `get_cap` gives its return code and the capabilities it writes,
`get_pwrstates` its return code and what it leaves in the state it is given. -/
structure dytwt_client_ops where
  setup : Option (dytwt_setup_param → Int)
  teardown : Option (dytwt_setup_param → Int)
  get_cap : Option (Int × dytwt_cap)
  get_pwrstates : Option (dytwt_pwr_state → Int × dytwt_pwr_state)

/-- The part of `struct wlan_ptracker_client` the consumer uses. -/
structure wlan_ptracker_client where
  dytwt_ops : Option dytwt_client_ops

/-- The calls the consumer makes: its own client helpers (`twt_*`, with the
scene they are given) and, inside them, the operations of the client (`op_*`,
with the parameters they are given). -/
inductive dytwt_call where
  | twt_setup (state : Nat)
  | twt_teardown (state : Nat)
  | twt_cap
  | twt_pwrstates
  | op_setup (param : dytwt_setup_param)
  | op_teardown (param : dytwt_setup_param)
  | op_get_cap
  | op_get_pwrstates
deriving DecidableEq, Repr

/-- The table `reason2str[WLAN_PTRACKER_NOTIFY_MAX]`. -/
def reason2str : List String :=
  ["tp", "scene_change", "scene_prep", "suspend", "sta_change"]

/-- The table `dytwt_actions[WLAN_SCENE_MAX]`. -/
def dytwt_actions : List dytwt_scene_action :=
  [ { action := TWT_ACTION_SETUP,
      param := { config_id := DYMAIC_TWT_CONFIG_ID, nego_type := 0, trigger_type := 0,
                 wake_duration := TWT_WAKE_DURATION, wake_interval := TWT_IDLE_INTERVAL } },
    { action := TWT_ACTION_SETUP,
      param := { config_id := DYMAIC_TWT_CONFIG_ID, nego_type := 0, trigger_type := 0,
                 wake_duration := TWT_WAKE_DURATION, wake_interval := TWT_WEB_INTERVAL } },
    { action := TWT_ACTION_SETUP,
      param := { config_id := DYMAIC_TWT_CONFIG_ID, nego_type := 0, trigger_type := 0,
                 wake_duration := TWT_WAKE_DURATION, wake_interval := TWT_YOUTUBE_INTERVAL } },
    { action := TWT_ACTION_TEARDOWN,
      param := { config_id := DYMAIC_TWT_CONFIG_ID, nego_type := 0, trigger_type := 0,
                 wake_duration := 0, wake_interval := 0 } },
    { action := TWT_ACTION_TEARDOWN,
      param := { config_id := DYMAIC_TWT_CONFIG_ID, nego_type := 0, trigger_type := 0,
                 wake_duration := 0, wake_interval := 0 } } ]

/-- The parameters `&dytwt_actions[state].param` for a state below
`WLAN_SCENE_MAX` (the helpers check the bound before they take them). -/
def dytwt_param (state : Nat) : dytwt_setup_param :=
  match dytwt_actions[state]? with
  | some act => act.param
  | none => { config_id := 0, nego_type := 0, trigger_type := 0,
              wake_duration := 0, wake_interval := 0 }

/-- The function `dytwt_client_twt_setup`: the return code and the trace. -/
def dytwt_client_twt_setup (client : wlan_ptracker_client) (state : Nat)
    (trace : List dytwt_call) : Int × List dytwt_call :=
  let trace := trace ++ [.twt_setup state]
  match client.dytwt_ops with
  | none => (-EINVAL, trace)
  | some ops =>
    match ops.setup with
    | none => (-EINVAL, trace)
    | some setup =>
      if state ≥ WLAN_SCENE_MAX then (-EINVAL, trace)
      else (setup (dytwt_param state), trace ++ [.op_setup (dytwt_param state)])

/-- The function `dytwt_client_twt_teardown`: the return code and the trace. -/
def dytwt_client_twt_teardown (client : wlan_ptracker_client) (state : Nat)
    (trace : List dytwt_call) : Int × List dytwt_call :=
  let trace := trace ++ [.twt_teardown state]
  match client.dytwt_ops with
  | none => (-EINVAL, trace)
  | some ops =>
    match ops.teardown with
    | none => (-EINVAL, trace)
    | some teardown =>
      if state ≥ WLAN_SCENE_MAX then (-EINVAL, trace)
      else (teardown (dytwt_param state), trace ++ [.op_teardown (dytwt_param state)])

/-- The function `dytwt_client_twt_cap`: the result and the trace. -/
def dytwt_client_twt_cap (client : wlan_ptracker_client) (trace : List dytwt_call) :
    Bool × List dytwt_call :=
  let trace := trace ++ [.twt_cap]
  match client.dytwt_ops with
  | none => (false, trace)
  | some ops =>
    match ops.get_cap with
    | none => (false, trace)
    | some (ret, param) =>
      if ret ≠ 0 then (false, trace ++ [.op_get_cap])
      else (decide (param.peer_cap ≠ 0) && decide (param.device_cap ≠ 0),
            trace ++ [.op_get_cap])

/-- The function `dytwt_client_twt_pwrstates`: the return code, the power
state behind the pointer, and the trace. -/
def dytwt_client_twt_pwrstates (client : wlan_ptracker_client) (state : dytwt_pwr_state)
    (trace : List dytwt_call) : Int × dytwt_pwr_state × List dytwt_call :=
  let trace := trace ++ [.twt_pwrstates]
  match client.dytwt_ops with
  | none => (-EINVAL, state, trace)
  | some ops =>
    match ops.get_pwrstates with
    | none => (-EINVAL, state, trace)
    | some get_pwrstates =>
      ((get_pwrstates state).1, (get_pwrstates state).2, trace ++ [.op_get_pwrstates])

/-- A zeroed slot of the log. -/
def dytwt_entry_zero : dytwt_entry :=
  { base := { state := 0, valid := false, ts := 0 }, apply := false, rate := 0, reason := 0,
    pwr := { awake := 0, asleep := 0 } }

/-- Modelled from the spec: `wlan_ptracker_history_create` of `debugfs.c`
(not among the sources): "create(capacity, slot_size): fails with OutOfMemory
if backing storage cannot be allocated"; a new log has no valid entry, cursor
and generation 0. `alloc_ok` tells whether the allocation succeeds. -/
def wlan_ptracker_history_create (alloc_ok : Bool) (entry_count : Nat) :
    Option history_manager :=
  if alloc_ok then
    some { cur := 0, round := 0, entry_count := entry_count,
           entries := List.replicate entry_count dytwt_entry_zero }
  else none

/-- Modelled from the spec: `wlan_ptracker_history_store` of `debugfs.c` (not
among the sources): "writes the header (discriminant, valid=true,
timestamp=now) into the slot at cursor, advances cursor; if cursor wraps to 0,
increments generation. Returns a mutable reference to the just-written slot":
the log after the header is written and the index of the slot. A log without
slots gives the null entry that the caller checks for. -/
def wlan_ptracker_history_store (hm : history_manager) (state : Nat) (now : Nat) :
    Option (history_manager × Nat) :=
  if hm.entry_count = 0 then none
  else
    let entry := hm.entries.getD hm.cur dytwt_entry_zero
    let entries := hm.entries.set hm.cur { entry with base := { state := state, valid := true, ts := now } }
    let cur := (hm.cur + 1) % hm.entry_count
    some ({ hm with entries := entries, cur := cur,
                    round := if cur = 0 then hm.round + 1 else hm.round }, hm.cur)

/-- The function `dytwt_mgmt_history_store`; `now` is the time of the store.
The result is `none` when the manager has no log: the null pointer `dytwt->hm`
is handed to `wlan_ptracker_history_store`. -/
def dytwt_mgmt_history_store (client : wlan_ptracker_client) (dytwt : dytwt_manager)
    (msg : wlan_scene_event) (apply : Bool) (now : Nat) (trace : List dytwt_call) :
    Option (dytwt_manager × List dytwt_call) :=
  match dytwt.hm with
  | none => none
  | some hm =>
    match wlan_ptracker_history_store hm msg.dst now with
    | none => some (dytwt, trace)
    | some (hm, idx) =>
      let entry := hm.entries.getD idx dytwt_entry_zero
      let entry := { entry with apply := apply, reason := msg.reason, rate := to_u32 msg.rate }
      let r := dytwt_client_twt_pwrstates client entry.pwr trace
      let entry := { entry with pwr := r.2.1 }
      some ({ dytwt with
                hm := some { hm with entries := hm.entries.set idx entry }
                prev := msg.dst },
            r.2.2)

/-- The function `dytwt_scene_change_handler`: the return code, the manager
and the trace; `none` when one of the two table lookups,
`dytwt_actions[state]` and `reason2str[msg->reason]`, is out of bounds, or
when the manager has no log. -/
def dytwt_scene_change_handler (client : wlan_ptracker_client) (dytwt : dytwt_manager)
    (msg : wlan_scene_event) (now : Nat) (trace : List dytwt_call) :
    Option (Int × dytwt_manager × List dytwt_call) :=
  let state := msg.dst
  if dytwt.feature_flag &&& BIT FEATURE_FLAG_TWT = 0 then
    (dytwt_mgmt_history_store client dytwt msg false now trace).map (fun r => (0, r))
  else
    let cap := dytwt_client_twt_cap client trace
    if cap.1 = false then
      (dytwt_mgmt_history_store client dytwt msg false now cap.2).map (fun r => (0, r))
    else
      match dytwt_actions[state]?, reason2str[msg.reason]? with
      | some act, some _ =>
        if act.action = TWT_ACTION_SETUP then
          let r := dytwt_client_twt_setup client state cap.2
          let apply : Bool := if r.1 ≠ 0 then false else true
          (dytwt_mgmt_history_store client dytwt msg apply now r.2).map (fun q => (r.1, q))
        else
          (dytwt_mgmt_history_store client dytwt msg true now cap.2).map (fun r => (0, r))
      | _, _ => none

/-- The function `dytwt_scene_change_prepare_handler`: the trace. -/
def dytwt_scene_change_prepare_handler (client : wlan_ptracker_client) (dytwt : dytwt_manager)
    (trace : List dytwt_call) : List dytwt_call :=
  if dytwt.prev < WLAN_SCENE_LOW_LATENCY then
    (dytwt_client_twt_teardown client dytwt.prev trace).2
  else trace

/-- The function `dytwt_notifier_handler`; `client` is `core->client`, which
may be null. -/
def dytwt_notifier_handler (client : Option wlan_ptracker_client) (dytwt : dytwt_manager)
    (msg : wlan_scene_event) (now : Nat) (event : Nat) (trace : List dytwt_call) :
    Option (Int × dytwt_manager × List dytwt_call) :=
  match client with
  | none => some (NOTIFY_OK, dytwt, trace)
  | some client =>
    if event = WLAN_PTRACKER_NOTIFY_SCENE_CHANGE then
      match dytwt_scene_change_handler client dytwt msg now trace with
      | some r => some (NOTIFY_OK, r.2)
      | none => none
    else if event = WLAN_PTRACKER_NOTIFY_SCENE_CHANGE_PREPARE then
      some (NOTIFY_OK, dytwt, dytwt_scene_change_prepare_handler client dytwt trace)
    else
      some (NOTIFY_OK, dytwt, trace)

/-- The function `dytwt_mgmt_init`; `alloc_ok` tells whether the log can be
allocated. -/
def dytwt_mgmt_init (alloc_ok : Bool) : dytwt_manager × Int :=
  let dytwt : dytwt_manager :=
    { prev := WLAN_SCENE_MAX, feature_flag := 0, state := WLAN_SCENE_IDLE, hm := none,
      dir := false }
  match wlan_ptracker_history_create alloc_ok DYTWT_RECORD_MAX with
  | none => (dytwt, -ENOMEM)
  | some hm => ({ dytwt with hm := some hm }, 0)

/-- The function `dytwt_debugfs_init`; `dir_ok` tells whether the directory
can be created. -/
def dytwt_debugfs_init (dytwt : dytwt_manager) (dir_ok : Bool) : dytwt_manager × Int :=
  let dytwt := { dytwt with feature_flag := dytwt.feature_flag ||| BIT FEATURE_FLAG_TWT,
                            dir := dir_ok }
  if dir_ok then (dytwt, 0) else (dytwt, -19)

/-- The function `dytwt_init` up to the registration on the bus. -/
def dytwt_init (alloc_ok dir_ok : Bool) : dytwt_manager :=
  (dytwt_debugfs_init (dytwt_mgmt_init alloc_ok).1 dir_ok).1

/-- The log is as `wlan_ptracker_history_create` and
`wlan_ptracker_history_store` leave it: it has slots, as many as
`entry_count`, and the cursor is one of them. -/
def history_ok (hm : history_manager) : Prop :=
  0 < hm.entry_count ∧ hm.cur < hm.entry_count ∧ hm.entries.length = hm.entry_count

instance (hm : history_manager) : Decidable (history_ok hm) :=
  inferInstanceAs (Decidable (_ ∧ _ ∧ _))

/-- The test that decides `apply` in `dytwt_scene_change_handler`, in terms of
the results of the two client helpers: the feature bit is set,
`dytwt_client_twt_cap` says yes, and the action of the scene is not a setup or
`dytwt_client_twt_setup` returns 0. -/
def handler_applies (client : wlan_ptracker_client) (dytwt : dytwt_manager)
    (msg : wlan_scene_event) : Prop :=
  dytwt.feature_flag &&& BIT FEATURE_FLAG_TWT ≠ 0 ∧
  (dytwt_client_twt_cap client []).1 = true ∧
  ∃ act, dytwt_actions[msg.dst]? = some act ∧
    (act.action ≠ TWT_ACTION_SETUP ∨ (dytwt_client_twt_setup client msg.dst []).1 = 0)

/-- The policy is applied, in the words of the specification and on the
client's own operations: the feature flag is on; the client reports its
capabilities without error and neither the device's nor the peer's is missing;
and the action of the scene is teardown, or it is setup and the client's setup
operation, given the parameters of the scene, returns 0. -/
def policy_applied (client : wlan_ptracker_client) (dytwt : dytwt_manager)
    (msg : wlan_scene_event) : Prop :=
  dytwt.feature_flag &&& BIT FEATURE_FLAG_TWT ≠ 0 ∧
  ∃ ops cap act, client.dytwt_ops = some ops ∧ ops.get_cap = some (0, cap) ∧
    cap.device_cap ≠ 0 ∧ cap.peer_cap ≠ 0 ∧
    dytwt_actions[msg.dst]? = some act ∧
    (act.action = TWT_ACTION_TEARDOWN ∨
      (act.action = TWT_ACTION_SETUP ∧
        ∃ setup, ops.setup = some setup ∧ setup act.param = 0))

/-- A client on a device that is capable while the peer is not. -/
def client_no_peer : wlan_ptracker_client :=
  { dytwt_ops := some
      { setup := some (fun _ => 0)
        teardown := some (fun _ => 0)
        get_cap := some (0, { device_cap := 1, peer_cap := 0 })
        get_pwrstates := some (fun _ => (0, { awake := 100, asleep := 900 })) } }

/-- The record that `dytwt_mgmt_history_store` leaves in the slot at the
cursor of the log `hm`. -/
def dytwt_record (client : wlan_ptracker_client) (hm : history_manager)
    (msg : wlan_scene_event) (apply : Bool) (now : Nat) : dytwt_entry :=
  { base := { state := msg.dst, valid := true, ts := now }
    apply := apply
    rate := to_u32 msg.rate
    reason := msg.reason
    pwr := (dytwt_client_twt_pwrstates client
              (hm.entries.getD hm.cur dytwt_entry_zero).pwr []).2.1 }

/-- A call of the helper `dytwt_client_twt_setup`. -/
def is_twt_setup : dytwt_call → Bool
  | .twt_setup _ => true
  | _ => false

/-- A call of the client's own `setup` operation. -/
def is_op_setup : dytwt_call → Bool
  | .op_setup _ => true
  | _ => false

/-- A call of the helper `dytwt_client_twt_teardown`. -/
def is_twt_teardown : dytwt_call → Bool
  | .twt_teardown _ => true
  | _ => false

/-- A call of the client's own `teardown` operation. -/
def is_op_teardown : dytwt_call → Bool
  | .op_teardown _ => true
  | _ => false

/-- A client whose operations all succeed, on a capable device and peer. -/
def client_ok : wlan_ptracker_client :=
  { dytwt_ops := some
      { setup := some (fun _ => 0)
        teardown := some (fun _ => 0)
        get_cap := some (0, { device_cap := 1, peer_cap := 1 })
        get_pwrstates := some (fun _ => (0, { awake := 100, asleep := 900 })) } }

/-- A client as `client_ok` whose peer rejects every setup. -/
def client_reject : wlan_ptracker_client :=
  { dytwt_ops := some
      { setup := some (fun _ => -1)
        teardown := some (fun _ => 0)
        get_cap := some (0, { device_cap := 1, peer_cap := 1 })
        get_pwrstates := some (fun _ => (0, { awake := 100, asleep := 900 })) } }

/-- A sample of 4294967.301 Kbits/second combined, above 2^32 bits/second. -/
def tp_fast : tp_monitor_stats := tp_combined 2147483648 2147483653

/-- The message armed by the sample `tp_fast` on the fresh classifier. -/
def msg_fast : wlan_scene_event :=
  (scenes_fsm_decision fsm_ready tp_fast WLAN_PTRACKER_NOTIFY_TP).msg

/-- The message armed by the sample `tp_web` on the fresh classifier. -/
def msg_web : wlan_scene_event :=
  (scenes_fsm_decision fsm_ready tp_web WLAN_PTRACKER_NOTIFY_TP).msg

/-- The log of the consumer right after `dytwt_init`. -/
def hm_fresh : history_manager :=
  { cur := 0, round := 0, entry_count := DYTWT_RECORD_MAX,
    entries := List.replicate DYTWT_RECORD_MAX dytwt_entry_zero }

/-! ## The power report of the log: `dytwt_record_priv_read` -/

/-- The conversion of an unsigned value to `int`. -/
def to_int (a : Nat) : Int := wrap_s32 (a : Int)

/-- The division of two `u64` values. It has no result when the divisor is 0. -/
def div64 (a b : Nat) : Option Nat := if b = 0 then none else some (a / b)

/-- The function `dytwt_record_get_pwr`: `*total` and `*percent` at its end,
`none` if the division by `*total` has a zero divisor. -/
def dytwt_record_get_pwr (asleep awake : Nat) : Option (Nat × Int) :=
  let total := add64 asleep awake / 100
  let percent : Option Int := if total = 0 then some 0 else (div64 asleep total).map to_int
  percent.map (fun percent => (total / 10, percent))

/-- The values that `dytwt_record_priv_read` hands to `scnprintf`, in the
order of the format string. -/
structure dytwt_line where
  apply : Bool
  period_time : Nat
  total_time : Nat
  period_percent : Int
  total_percent : Int
  reason : String
  rate : Int
deriving DecidableEq, Repr

/-- The function `dytwt_record_priv_read` up to the rendering of the text:
the values it reports for the record `c` and the record `n` after it, if there
is one; `none` when `reason2str[c->reason]` is out of bounds or a division has
a zero divisor. -/
def dytwt_record_priv_read (c : dytwt_entry) (n : Option dytwt_entry) : Option dytwt_line :=
  match dytwt_record_get_pwr c.pwr.asleep c.pwr.awake with
  | none => none
  | some (total_time, total_percent) =>
    let period : Option (Nat × Int) :=
      match n with
      | none => some (0, 0)
      | some n =>
        let awake := if n.pwr.awake > c.pwr.awake then n.pwr.awake - c.pwr.awake
                     else c.pwr.awake
        let asleep := if n.pwr.asleep > c.pwr.asleep then n.pwr.asleep - c.pwr.asleep
                      else c.pwr.asleep
        dytwt_record_get_pwr asleep awake
    match period, reason2str[c.reason]? with
    | some (period_time, period_percent), some reason =>
      some { apply := c.apply, period_time := period_time, total_time := total_time,
             period_percent := period_percent, total_percent := total_percent,
             reason := reason, rate := to_int c.rate }
    | _, _ => none

/-- A record with 1000 units awake and 9000 asleep. -/
def entry_early : dytwt_entry :=
  { dytwt_entry_zero with pwr := { awake := 1000, asleep := 9000 } }

/-- A later record: 4000 more units awake, none more asleep. -/
def entry_awake : dytwt_entry :=
  { dytwt_entry_zero with pwr := { awake := 5000, asleep := 9000 } }

/-- A later record: 4000 more units awake, 6000 more asleep. -/
def entry_later : dytwt_entry :=
  { dytwt_entry_zero with pwr := { awake := 5000, asleep := 15000 } }

/-! ## Runs driven by the notifier -/

/-- The steps of a run as the driver sees them: an event arrives at
`scene_notifier_handler` with the snapshot of the moment (the only way into
`scenes_fsm_decision`, which is static), or the worker gets to run. -/
inductive core_input where
  | notify (tp : tp_monitor_stats) (event : Nat)
  | wake

/-- One step of such a run. -/
def core_run_step (w : fsm_world) : core_input → fsm_world
  | .notify tp event => { w with fsm := (scene_notifier_handler w.fsm tp event).1 }
  | .wake => fsm_run_step w .wake

/-- A run driven by the notifier: the steps in order. -/
def core_run (w : fsm_world) (steps : List core_input) : fsm_world :=
  steps.foldl core_run_step w

/-- The fields of a message are in range: state, src and dst are scenes, below
the scene count, and reason is an event reason. -/
def msg_valid (msg : wlan_scene_event) : Prop :=
  msg.state < WLAN_SCENE_MAX ∧ msg.src < WLAN_SCENE_MAX ∧ msg.dst < WLAN_SCENE_MAX ∧
  msg.reason < WLAN_PTRACKER_NOTIFY_MAX

instance (msg : wlan_scene_event) : Decidable (msg_valid msg) :=
  inferInstanceAs (Decidable (_ ∧ _ ∧ _ ∧ _))

/-- A run through the driver's entry points: a sample for Web, a station
change, a suspend at idle rate, an event the classifier ignores, each trigger
followed by a wake. -/
def steps_driver : List core_input :=
  [.notify tp_web WLAN_PTRACKER_NOTIFY_TP, .wake,
   .notify tp_youtube WLAN_PTRACKER_NOTIFY_STA_CHANGE, .wake,
   .notify tp_idle WLAN_PTRACKER_NOTIFY_SUSPEND, .wake,
   .notify tp_fast 77, .wake]

/-- The invariant of the runs driven by the notifier: the table is the
built-in one, and the message, as it is and as every dispatch has seen and left
it, has its fields in range. -/
def core_inv (w : fsm_world) : Prop :=
  w.fsm.conditions = conditions ∧ msg_valid w.fsm.msg ∧
  ∀ r, r ∈ w.log → msg_valid r.seen ∧ msg_valid r.after

/-- A sample of 60000 Kbits/second combined. -/
def tp_tput : tp_monitor_stats := tp_combined 30000000 30000000

/-- A run up to the second armed transition: Web armed and committed, then
Streaming armed, its wake still to come. -/
def steps_arm_two : List fsm_input :=
  [.decision tp_web WLAN_PTRACKER_NOTIFY_TP, .wake,
   .decision tp_youtube WLAN_PTRACKER_NOTIFY_TP]

/-- The run `steps_arm_two`, the wake of its second transition, and then a
third transition, to Throughput, with its wake. -/
def steps_skip : List fsm_input :=
  steps_arm_two ++ [.wake, .decision tp_tput WLAN_PTRACKER_NOTIFY_TP, .wake]

/-- The number of transitions a step arms: 1 for a call of
`scenes_fsm_decision` that signals the worker, 0 otherwise. -/
def fsm_arms (w : fsm_world) : fsm_input → Nat
  | .decision tp type =>
    if (scenes_fsm_decision w.fsm tp type).event = w.fsm.event + 1 then 1 else 0
  | .wake => 0

/-- The number of transitions armed along a run from the world `w`. -/
def fsm_arm_count (w : fsm_world) : List fsm_input → Nat
  | [] => 0
  | s :: rest => fsm_arms w s + fsm_arm_count (fsm_run_step w s) rest

/-! # Theorems -/

/-! ## Lemmas on the classification -/

theorem scenes_check_true {rate : Nat} {cond : wlan_state_condition} {msg m : wlan_scene_event}
    (h : scenes_check rate cond msg = (true, m)) :
    in_interval cond rate ∧ m = { msg with rate := rate } := by
  unfold scenes_check at h
  dsimp only at h
  split at h
  · rename_i hk
    simp only [Prod.mk.injEq, true_and] at h
    exact ⟨hk, h.symm⟩
  · simp at h

theorem scenes_check_false {rate : Nat} {cond : wlan_state_condition} {msg m : wlan_scene_event}
    (h : scenes_check rate cond msg = (false, m)) : ¬ in_interval cond rate := by
  unfold scenes_check at h
  dsimp only at h
  split at h
  · simp at h
  · rename_i hk
    exact hk

theorem selected_sum_step (cond : wlan_state_condition) (stats : tp_monitor_stats)
    (j total_tx total_rx : Nat)
    (hinv : (total_tx + total_rx) % 18446744073709551616
      = selected_sum cond.ac_mask stats j % 18446744073709551616) :
    add64 (if cond.ac_mask &&& BIT j ≠ 0 then add64 total_tx (stats.tx j) else total_tx)
        (if cond.ac_mask &&& BIT j ≠ 0 then add64 total_rx (stats.rx j) else total_rx)
      = running_sum cond.ac_mask stats j := by
  unfold running_sum
  rw [selected_sum]
  by_cases hb : cond.ac_mask &&& BIT j ≠ 0
  · rw [if_pos hb, if_pos hb, if_pos hb]
    unfold add64
    omega
  · rw [if_neg hb, if_neg hb, if_neg hb]
    unfold add64
    omega

theorem ac_loop_none (cond : wlan_state_condition) (stats : tp_monitor_stats)
    (msg : wlan_scene_event) (n : Nat) : ∀ (j total_tx total_rx : Nat),
    (total_tx + total_rx) % 18446744073709551616
      = selected_sum cond.ac_mask stats j % 18446744073709551616 →
    (scenes_condition_ac_loop cond stats msg n j total_tx total_rx = none ↔
      ∀ k, j ≤ k → k < j + n → ¬ in_interval cond (running_sum cond.ac_mask stats k)) := by
  induction n with
  | zero =>
    intro j total_tx total_rx _
    simp only [scenes_condition_ac_loop, true_iff]
    intro k h1 h2
    omega
  | succ n ih =>
    intro j total_tx total_rx hinv
    have hstep := selected_sum_step cond stats j total_tx total_rx hinv
    rw [scenes_condition_ac_loop]
    rw [hstep]
    cases hc : scenes_check (running_sum cond.ac_mask stats j) cond msg with
    | mk b m =>
      cases b with
      | true =>
        have hin := (scenes_check_true hc).1
        simp only [false_iff, reduceCtorEq]
        intro hall
        exact hall j (Nat.le_refl j) (by omega) hin
      | false =>
        have hout := scenes_check_false hc
        have hinv2 : ((if cond.ac_mask &&& BIT j ≠ 0 then add64 total_tx (stats.tx j) else total_tx)
            + (if cond.ac_mask &&& BIT j ≠ 0 then add64 total_rx (stats.rx j) else total_rx))
              % 18446744073709551616
            = selected_sum cond.ac_mask stats (j + 1) % 18446744073709551616 := by
          have := hstep
          unfold running_sum add64 at this
          exact this
        rw [ih (j + 1) _ _ hinv2]
        constructor
        · intro hall k h1 h2
          by_cases hk : k = j
          · subst hk; exact hout
          · exact hall k (by omega) (by omega)
        · intro hall k h1 h2
          exact hall k (by omega) (by omega)

theorem ac_loop_some (cond : wlan_state_condition) (stats : tp_monitor_stats)
    (msg : wlan_scene_event) (n : Nat) : ∀ (j total_tx total_rx : Nat) (m : wlan_scene_event),
    (total_tx + total_rx) % 18446744073709551616
      = selected_sum cond.ac_mask stats j % 18446744073709551616 →
    scenes_condition_ac_loop cond stats msg n j total_tx total_rx = some m →
    ∃ k, j ≤ k ∧ k < j + n ∧ in_interval cond (running_sum cond.ac_mask stats k) ∧
      m = { msg with rate := running_sum cond.ac_mask stats k } := by
  induction n with
  | zero =>
    intro j total_tx total_rx m _ h
    simp [scenes_condition_ac_loop] at h
  | succ n ih =>
    intro j total_tx total_rx m hinv h
    have hstep := selected_sum_step cond stats j total_tx total_rx hinv
    rw [scenes_condition_ac_loop] at h
    rw [hstep] at h
    cases hc : scenes_check (running_sum cond.ac_mask stats j) cond msg with
    | mk b m2 =>
      rw [hc] at h
      cases b with
      | true =>
        simp only [Option.some.injEq] at h
        subst h
        obtain ⟨hin, hm⟩ := scenes_check_true hc
        exact ⟨j, Nat.le_refl j, by omega, hin, hm⟩
      | false =>
        have hinv2 : ((if cond.ac_mask &&& BIT j ≠ 0 then add64 total_tx (stats.tx j) else total_tx)
            + (if cond.ac_mask &&& BIT j ≠ 0 then add64 total_rx (stats.rx j) else total_rx))
              % 18446744073709551616
            = selected_sum cond.ac_mask stats (j + 1) % 18446744073709551616 := by
          have := hstep
          unfold running_sum add64 at this
          exact this
        obtain ⟨k, h1, h2, h3, h4⟩ := ih (j + 1) _ _ m hinv2 h
        exact ⟨k, by omega, by omega, h3, h4⟩

theorem try_none (cond : wlan_state_condition) (stats : tp_monitor_stats)
    (msg : wlan_scene_event) :
    scenes_condition_try cond stats msg = none ↔ ¬ cond_matches cond stats := by
  unfold scenes_condition_try cond_matches
  by_cases hm : cond.ac_mask = WMM_AC_ALL_MASK
  · rw [if_pos hm, if_pos hm]
    have hadd : add64 (stats.tx WMM_AC_MAX) (stats.rx WMM_AC_MAX) = combined_rate stats := rfl
    rw [hadd]
    cases hc : scenes_check (combined_rate stats) cond msg with
    | mk b m =>
      cases b with
      | true =>
        have hin := (scenes_check_true hc).1
        simp only [reduceCtorEq, false_iff, not_not]
        exact hin
      | false =>
        have hout := scenes_check_false hc
        simp only [true_iff]
        exact hout
  · rw [if_neg hm, if_neg hm]
    rw [ac_loop_none cond stats msg WMM_AC_MAX 0 0 0 (by simp [selected_sum])]
    constructor
    · intro hall hex
      obtain ⟨j, hj, hin⟩ := hex
      exact hall j (Nat.zero_le j) (by omega) hin
    · intro hnex k _ h2 hin
      exact hnex ⟨k, by omega, hin⟩

theorem try_some (cond : wlan_state_condition) (stats : tp_monitor_stats)
    (msg m : wlan_scene_event) (h : scenes_condition_try cond stats msg = some m) :
    candidate_rate cond stats m.rate ∧ in_interval cond m.rate ∧
      m = { msg with rate := m.rate } := by
  unfold scenes_condition_try at h
  unfold candidate_rate
  by_cases hm : cond.ac_mask = WMM_AC_ALL_MASK
  · rw [if_pos hm] at h
    rw [if_pos hm]
    have hadd : add64 (stats.tx WMM_AC_MAX) (stats.rx WMM_AC_MAX) = combined_rate stats := rfl
    rw [hadd] at h
    cases hc : scenes_check (combined_rate stats) cond msg with
    | mk b m2 =>
      rw [hc] at h
      cases b with
      | true =>
        simp only [Option.some.injEq] at h
        subst h
        obtain ⟨hin, hm2⟩ := scenes_check_true hc
        subst hm2
        exact ⟨rfl, hin, rfl⟩
      | false => simp at h
  · rw [if_neg hm] at h
    rw [if_neg hm]
    obtain ⟨k, _, h2, h3, h4⟩ :=
      ac_loop_some cond stats msg WMM_AC_MAX 0 0 0 m (by simp [selected_sum]) h
    subst h4
    exact ⟨⟨k, by omega, rfl⟩, h3, rfl⟩

theorem scan_none (conditions : Nat → wlan_state_condition) (stats : tp_monitor_stats)
    (msg : wlan_scene_event) (n : Nat) :
    scenes_condition_scan conditions stats msg n = none ↔
      ∀ i, i < n → ¬ cond_matches (conditions i) stats := by
  induction n with
  | zero => simp [scenes_condition_scan]
  | succ n ih =>
    rw [scenes_condition_scan]
    cases ht : scenes_condition_try (conditions n) stats msg with
    | some m =>
      have hmatch : cond_matches (conditions n) stats := by
        by_contra hno
        rw [(try_none _ _ _).mpr hno] at ht
        exact Option.noConfusion ht
      simp only [reduceCtorEq, false_iff]
      intro hall
      exact hall n (Nat.lt_succ_self n) hmatch
    | none =>
      have hno := (try_none _ _ _).mp ht
      simp only
      rw [ih]
      constructor
      · intro hall i hi
        by_cases hin : i = n
        · subst hin; exact hno
        · exact hall i (by omega)
      · intro hall i hi
        exact hall i (by omega)

theorem scan_some (conditions : Nat → wlan_state_condition) (stats : tp_monitor_stats)
    (msg : wlan_scene_event) (n : Nat) (r : Nat × wlan_scene_event)
    (h : scenes_condition_scan conditions stats msg n = some r) :
    ∃ i, i < n ∧ cond_matches (conditions i) stats ∧
      (∀ k, i < k → k < n → ¬ cond_matches (conditions k) stats) ∧
      r.1 = (conditions i).scene ∧ candidate_rate (conditions i) stats r.2.rate ∧
      in_interval (conditions i) r.2.rate ∧ r.2 = { msg with rate := r.2.rate } := by
  induction n with
  | zero => simp [scenes_condition_scan] at h
  | succ n ih =>
    rw [scenes_condition_scan] at h
    cases ht : scenes_condition_try (conditions n) stats msg with
    | some m =>
      rw [ht] at h
      simp only [Option.some.injEq] at h
      subst h
      have hmatch : cond_matches (conditions n) stats := by
        by_contra hno
        rw [(try_none _ _ _).mpr hno] at ht
        exact Option.noConfusion ht
      obtain ⟨h1, h2, h3⟩ := try_some _ _ _ _ ht
      exact ⟨n, Nat.lt_succ_self n, hmatch, fun k hk1 hk2 => by omega, rfl, h1, h2, h3⟩
    | none =>
      rw [ht] at h
      have hno := (try_none _ _ _).mp ht
      obtain ⟨i, hi, hmi, hhigh, hrest⟩ := ih h
      refine ⟨i, by omega, hmi, ?_, hrest⟩
      intro k hk1 hk2
      by_cases hkn : k = n
      · subst hkn; exact hno
      · exact hhigh k hk1 (by omega)

/-! ## The classification returns the highest-ranked matching condition -/

theorem condition_get_highest (conds : Nat → wlan_state_condition)
    (stats : tp_monitor_stats) (msg : wlan_scene_event) :
    (∀ i, i < FSM_STATE_MAX → cond_matches (conds i) stats →
      (∀ k, i < k → k < FSM_STATE_MAX → ¬ cond_matches (conds k) stats) →
      (scenes_condition_get conds stats msg).1 = (conds i).scene ∧
      candidate_rate (conds i) stats (scenes_condition_get conds stats msg).2.rate ∧
      in_interval (conds i) (scenes_condition_get conds stats msg).2.rate ∧
      (scenes_condition_get conds stats msg).2
        = { msg with rate := (scenes_condition_get conds stats msg).2.rate }) ∧
    ((∀ i, i < FSM_STATE_MAX → ¬ cond_matches (conds i) stats) →
      scenes_condition_get conds stats msg = (msg.state, msg)) ∧
    (scenes_condition_scan conds stats msg FSM_STATE_MAX = none ↔
      ∀ i, i < FSM_STATE_MAX → ¬ cond_matches (conds i) stats) := by
  refine ⟨?_, ?_, scan_none conds stats msg FSM_STATE_MAX⟩
  · intro i hi hmi hhigh
    cases hs : scenes_condition_scan conds stats msg FSM_STATE_MAX with
    | none =>
      exact absurd hmi ((scan_none conds stats msg FSM_STATE_MAX).mp hs i hi)
    | some r =>
      obtain ⟨i2, hi2, hm2, hhigh2, hr1, hr2, hr3, hr4⟩ := scan_some conds stats msg _ r hs
      have hii : i2 = i := by
        by_contra hne
        rcases Nat.lt_or_gt_of_ne hne with hlt | hgt
        · exact hhigh2 i hlt hi hmi
        · exact hhigh i2 hgt hi2 hm2
      subst hii
      have hget : scenes_condition_get conds stats msg = r := by
        unfold scenes_condition_get
        rw [hs]
      rw [hget]
      exact ⟨hr1, hr2, hr3, hr4⟩
  · intro hall
    unfold scenes_condition_get
    rw [(scan_none conds stats msg FSM_STATE_MAX).mpr hall]

/-! ## C1: `scenes_condition_get` -/

/-- C1 fails as stated: with Idle committed and a combined rate of 500
Kbits/second, condition 0 (Idle) matches and `scenes_condition_get` returns
its scene, which is the committed state: the committed state is returned
although a condition matches, and the rate of the message is overwritten. -/
theorem committed_scene_returned_on_match :
    cond_matches (conditions 0) tp_idle ∧
    (scenes_condition_get conditions tp_idle fsm_ready.msg).1 = fsm_ready.msg.state ∧
    (scenes_condition_get conditions tp_idle fsm_ready.msg).2.rate = 500000 ∧
    fsm_ready.msg.rate = 0 ∧
    ¬ ((scenes_condition_get conditions tp_idle fsm_ready.msg).1 = fsm_ready.msg.state ↔
        ∀ i, i < FSM_STATE_MAX → ¬ cond_matches (conditions i) tp_idle) :=
  ⟨by decide, by decide, by decide, by decide,
    fun h => h.mp (by decide) 0 (by decide) (by decide)⟩

/-- C1, amended: for every condition table, throughput snapshot and message,
`scenes_condition_get` returns the scene of the highest-index condition that
matches (full mask: the combined rate divided by 1000 lies in `[min, max)`;
specific mask: some running sum of the selected classes does), the rate it
records is a bits/second value that condition looks at and lies in its
interval, and nothing else of the message changes; when no condition matches
it returns the committed state and leaves the message as it is; and the value
it returns is the committed state exactly when no condition matches or the
scene of the highest-index matching condition is the committed state. The sums
are 64-bit sums; short of an overflow they are the plain sums. -/
theorem scenes_condition_get_highest_match (conds : Nat → wlan_state_condition)
    (stats : tp_monitor_stats) (msg : wlan_scene_event) :
    (∀ i, i < FSM_STATE_MAX → cond_matches (conds i) stats →
      (∀ k, i < k → k < FSM_STATE_MAX → ¬ cond_matches (conds k) stats) →
      (scenes_condition_get conds stats msg).1 = (conds i).scene ∧
      candidate_rate (conds i) stats (scenes_condition_get conds stats msg).2.rate ∧
      in_interval (conds i) (scenes_condition_get conds stats msg).2.rate ∧
      (scenes_condition_get conds stats msg).2
        = { msg with rate := (scenes_condition_get conds stats msg).2.rate }) ∧
    ((∀ i, i < FSM_STATE_MAX → ¬ cond_matches (conds i) stats) →
      scenes_condition_get conds stats msg = (msg.state, msg)) ∧
    ((scenes_condition_get conds stats msg).1 = msg.state ↔
      (∀ i, i < FSM_STATE_MAX → ¬ cond_matches (conds i) stats) ∨
      ∃ i, i < FSM_STATE_MAX ∧ cond_matches (conds i) stats ∧
        (∀ k, i < k → k < FSM_STATE_MAX → ¬ cond_matches (conds k) stats) ∧
        (conds i).scene = msg.state) ∧
    (stats.tx WMM_AC_MAX + stats.rx WMM_AC_MAX < 18446744073709551616 →
      combined_rate stats = stats.tx WMM_AC_MAX + stats.rx WMM_AC_MAX) ∧
    (∀ mask j, selected_sum mask stats (j + 1) < 18446744073709551616 →
      running_sum mask stats j = selected_sum mask stats (j + 1)) := by
  obtain ⟨hmatch, hnone, hscan⟩ := condition_get_highest conds stats msg
  refine ⟨hmatch, hnone, ?_, fun h => Nat.mod_eq_of_lt h, fun _ _ h => Nat.mod_eq_of_lt h⟩
  constructor
  · intro hret
    cases hs : scenes_condition_scan conds stats msg FSM_STATE_MAX with
    | none => exact Or.inl (hscan.mp hs)
    | some r =>
      obtain ⟨i, hi, hmi, hhigh, _⟩ := scan_some conds stats msg _ r hs
      right
      refine ⟨i, hi, hmi, hhigh, ?_⟩
      rw [← (hmatch i hi hmi hhigh).1]
      exact hret
  · intro h
    rcases h with hall | ⟨i, hi, hmi, hhigh, hscene⟩
    · rw [hnone hall]
    · rw [(hmatch i hi hmi hhigh).1]
      exact hscene

/-! ## Lemmas on the decision and the worker -/

theorem condition_get_frame (conds : Nat → wlan_state_condition) (tp : tp_monitor_stats)
    (msg : wlan_scene_event) :
    (scenes_condition_get conds tp msg).2
      = { msg with rate := (scenes_condition_get conds tp msg).2.rate } := by
  unfold scenes_condition_get
  cases hs : scenes_condition_scan conds tp msg FSM_STATE_MAX with
  | none => rfl
  | some r =>
    obtain ⟨_, _, _, _, _, _, _, hr⟩ := scan_some conds tp msg _ r hs
    exact hr

theorem condition_get_state (conds : Nat → wlan_state_condition) (tp : tp_monitor_stats)
    (msg : wlan_scene_event) : (scenes_condition_get conds tp msg).2.state = msg.state := by
  rw [condition_get_frame]

theorem condition_get_src (conds : Nat → wlan_state_condition) (tp : tp_monitor_stats)
    (msg : wlan_scene_event) : (scenes_condition_get conds tp msg).2.src = msg.src := by
  rw [condition_get_frame]

theorem condition_get_dst (conds : Nat → wlan_state_condition) (tp : tp_monitor_stats)
    (msg : wlan_scene_event) : (scenes_condition_get conds tp msg).2.dst = msg.dst := by
  rw [condition_get_frame]

theorem condition_get_reason (conds : Nat → wlan_state_condition) (tp : tp_monitor_stats)
    (msg : wlan_scene_event) : (scenes_condition_get conds tp msg).2.reason = msg.reason := by
  rw [condition_get_frame]

theorem except_eq (type : Nat) (cnt : Int) :
    (if type = WLAN_PTRACKER_NOTIFY_SUSPEND then decide (Int.tmod cnt RESET_THRESHOLD = 0)
      else false) = decide (type = WLAN_PTRACKER_NOTIFY_SUSPEND) := by
  by_cases h : type = WLAN_PTRACKER_NOTIFY_SUSPEND
  · simp [h, RESET_THRESHOLD]
  · simp [h]

theorem decision_armed (fsm : wlan_ptracker_fsm) (tp : tp_monitor_stats) (type : Nat)
    (hrun : fsm.fsm_thread = true) (h : decision_arms fsm tp type) :
    scenes_fsm_decision fsm tp type =
      { fsm with
        reset_cnt := 0
        msg := { (scenes_condition_get fsm.conditions tp fsm.msg).2 with
          src := fsm.msg.state
          dst := (scenes_condition_get fsm.conditions tp fsm.msg).1
          reason := type }
        event := fsm.event + 1 } := by
  obtain ⟨h1, h2⟩ := h
  unfold scenes_fsm_decision
  simp only [hrun, Bool.true_eq_false, if_false, except_eq, condition_get_state,
    decide_eq_false_iff_not]
  rw [if_neg h1, if_neg h2]

theorem decision_idle (fsm : wlan_ptracker_fsm) (tp : tp_monitor_stats) (type : Nat)
    (hrun : fsm.fsm_thread = true) (h : ¬ decision_arms fsm tp type) :
    scenes_fsm_decision fsm tp type =
      { fsm with
        msg := (scenes_condition_get fsm.conditions tp fsm.msg).2
        reset_cnt := if type = WLAN_PTRACKER_NOTIFY_SUSPEND then wrap_s32 (fsm.reset_cnt + 1)
                     else fsm.reset_cnt } := by
  unfold decision_arms at h
  unfold scenes_fsm_decision
  simp only [hrun, Bool.true_eq_false, if_false, except_eq, condition_get_state,
    decide_eq_false_iff_not]
  by_cases h1 : (scenes_condition_get fsm.conditions tp fsm.msg).1 = fsm.msg.state
      ∧ type ≠ WLAN_PTRACKER_NOTIFY_STA_CHANGE
  · rw [if_pos h1]
  · rw [if_neg h1]
    have h2 : (scenes_condition_get fsm.conditions tp fsm.msg).1 < fsm.msg.state
        ∧ type ≠ WLAN_PTRACKER_NOTIFY_SUSPEND := by
      by_contra hc
      exact h ⟨h1, hc⟩
    rw [if_pos h2]

theorem decision_stopped (fsm : wlan_ptracker_fsm) (tp : tp_monitor_stats) (type : Nat)
    (hrun : fsm.fsm_thread = false) : scenes_fsm_decision fsm tp type = fsm := by
  unfold scenes_fsm_decision
  simp [hrun]

theorem wake_eq {σ : Type} (call_chain : Nat → wlan_scene_event → σ → σ × Int)
    (fsm : wlan_ptracker_fsm) (env : σ) (hev : fsm.event ≠ 0) :
    fsm_thread_iter call_chain false fsm env =
      some (if fsm.confirm = true then
          ({ fsm with
              event := fsm.event - 1
              msg := { fsm.msg with state := fsm.msg.dst }
              confirm := false },
            (call_chain WLAN_PTRACKER_NOTIFY_SCENE_CHANGE fsm.msg env).1)
        else
          ({ fsm with event := fsm.event - 1, confirm := true },
            (call_chain WLAN_PTRACKER_NOTIFY_SCENE_CHANGE_PREPARE fsm.msg env).1)) := by
  unfold fsm_thread_iter
  simp only [Bool.false_eq_true, if_false, hev]
  cases hc : fsm.confirm <;> simp

theorem wake_blocked {σ : Type} (call_chain : Nat → wlan_scene_event → σ → σ × Int)
    (fsm : wlan_ptracker_fsm) (env : σ) (hev : fsm.event = 0) :
    fsm_thread_iter call_chain false fsm env = none := by
  unfold fsm_thread_iter
  simp [hev]

/-! ## C2: when `scenes_fsm_decision` arms a transition -/

/-- C2: with a running worker, `scenes_fsm_decision` arms (signals the worker,
exactly once) if and only if (new_scene differs from the committed state or the
reason is StationChange) and (new_scene is not below the committed state or
the downgrade is allowed, which needs reason Suspend and the incremented
reset count to be a multiple of the threshold); when it arms, src is the
committed state, dst is new_scene, reason is the trigger, rate is the one the
classification recorded, reset_cnt is 0 and the committed state is unchanged;
when it does not arm, the worker is not signalled. -/
theorem scenes_fsm_decision_arming (fsm : wlan_ptracker_fsm) (tp : tp_monitor_stats)
    (type : Nat) (hrun : fsm.fsm_thread = true) :
    ((scenes_fsm_decision fsm tp type).event = fsm.event + 1 ↔
      ((scenes_condition_get fsm.conditions tp fsm.msg).1 ≠ fsm.msg.state
        ∨ type = WLAN_PTRACKER_NOTIFY_STA_CHANGE) ∧
      (fsm.msg.state ≤ (scenes_condition_get fsm.conditions tp fsm.msg).1
        ∨ (type = WLAN_PTRACKER_NOTIFY_SUSPEND
            ∧ RESET_THRESHOLD ∣ wrap_s32 (fsm.reset_cnt + 1)))) ∧
    ((scenes_fsm_decision fsm tp type).event = fsm.event + 1 →
      (scenes_fsm_decision fsm tp type).msg.src = fsm.msg.state ∧
      (scenes_fsm_decision fsm tp type).msg.dst
        = (scenes_condition_get fsm.conditions tp fsm.msg).1 ∧
      (scenes_fsm_decision fsm tp type).msg.reason = type ∧
      (scenes_fsm_decision fsm tp type).msg.rate
        = (scenes_condition_get fsm.conditions tp fsm.msg).2.rate ∧
      (scenes_fsm_decision fsm tp type).reset_cnt = 0 ∧
      (scenes_fsm_decision fsm tp type).msg.state = fsm.msg.state) ∧
    ((scenes_fsm_decision fsm tp type).event ≠ fsm.event + 1 →
      (scenes_fsm_decision fsm tp type).event = fsm.event) := by
  have hdiv : ∀ x : Int, RESET_THRESHOLD ∣ x := fun x => by
    unfold RESET_THRESHOLD; exact one_dvd x
  by_cases harm : decision_arms fsm tp type
  · rw [decision_armed fsm tp type hrun harm]
    obtain ⟨h1, h2⟩ := harm
    refine ⟨?_, ?_, ?_⟩
    · simp only [true_iff]
      constructor
      · by_contra hc
        apply h1
        constructor
        · by_contra hne; exact hc (Or.inl hne)
        · intro hsta; exact hc (Or.inr hsta)
      · by_cases hs : type = WLAN_PTRACKER_NOTIFY_SUSPEND
        · exact Or.inr ⟨hs, hdiv _⟩
        · left
          by_contra hlt
          exact h2 ⟨by omega, hs⟩
    · intro _
      exact ⟨rfl, rfl, rfl, rfl, rfl, condition_get_state _ _ _⟩
    · intro hne
      exact absurd rfl hne
  · rw [decision_idle fsm tp type hrun harm]
    refine ⟨?_, ?_, ?_⟩
    · simp only [Nat.self_eq_add_right, one_ne_zero, false_iff]
      intro hc
      apply harm
      obtain ⟨hc1, hc2⟩ := hc
      constructor
      · intro hh
        rcases hc1 with hne | hsta
        · exact hne hh.1
        · exact hh.2 hsta
      · intro hh
        rcases hc2 with hle | hsus
        · omega
        · exact hh.2 hsus.1
    · intro hh
      simp at hh
    · intro _
      rfl

/-- C2 at a concrete input: the freshly started classifier and a sample of
5000 Kbits/second. -/
theorem scenes_fsm_decision_arming_witness :
    fsm_ready.fsm_thread = true ∧
    (scenes_fsm_decision fsm_ready tp_web WLAN_PTRACKER_NOTIFY_TP).event = fsm_ready.event + 1 ∧
    (scenes_fsm_decision fsm_ready tp_web WLAN_PTRACKER_NOTIFY_TP).msg.dst = WLAN_SCENE_WEB :=
  ⟨rfl,
    (scenes_fsm_decision_arming fsm_ready tp_web WLAN_PTRACKER_NOTIFY_TP rfl).1.mpr
      (by decide),
    ((scenes_fsm_decision_arming fsm_ready tp_web WLAN_PTRACKER_NOTIFY_TP rfl).2.1
      (by decide)).2.1.trans (by decide)⟩

/-! ## Lemmas on runs -/

theorem decision_state (fsm : wlan_ptracker_fsm) (tp : tp_monitor_stats) (type : Nat) :
    (scenes_fsm_decision fsm tp type).msg.state = fsm.msg.state := by
  cases hrun : fsm.fsm_thread with
  | false => rw [decision_stopped fsm tp type hrun]
  | true =>
    by_cases harm : decision_arms fsm tp type
    · rw [decision_armed fsm tp type hrun harm]
      exact condition_get_state _ _ _
    · rw [decision_idle fsm tp type hrun harm]
      exact condition_get_state _ _ _

theorem decision_confirm (fsm : wlan_ptracker_fsm) (tp : tp_monitor_stats) (type : Nat) :
    (scenes_fsm_decision fsm tp type).confirm = fsm.confirm := by
  cases hrun : fsm.fsm_thread with
  | false => rw [decision_stopped fsm tp type hrun]
  | true =>
    by_cases harm : decision_arms fsm tp type
    · rw [decision_armed fsm tp type hrun harm]
    · rw [decision_idle fsm tp type hrun harm]

theorem decision_dst_ge (fsm : wlan_ptracker_fsm) (tp : tp_monitor_stats) (type : Nat)
    (hs : type ≠ WLAN_PTRACKER_NOTIFY_SUSPEND) (hI : fsm.msg.state ≤ fsm.msg.dst) :
    fsm.msg.state ≤ (scenes_fsm_decision fsm tp type).msg.dst := by
  cases hrun : fsm.fsm_thread with
  | false => rw [decision_stopped fsm tp type hrun]; exact hI
  | true =>
    by_cases harm : decision_arms fsm tp type
    · rw [decision_armed fsm tp type hrun harm]
      obtain ⟨_, h2⟩ := harm
      show fsm.msg.state ≤ (scenes_condition_get fsm.conditions tp fsm.msg).1
      by_contra hlt
      exact h2 ⟨by omega, hs⟩
    · rw [decision_idle fsm tp type hrun harm]
      show fsm.msg.state ≤ (scenes_condition_get fsm.conditions tp fsm.msg).2.dst
      rw [condition_get_dst]
      exact hI

theorem run_step_wake_commit (w : fsm_world) (hth : w.fsm.fsm_thread = true)
    (hev : w.fsm.event ≠ 0) (hc : w.fsm.confirm = true) :
    fsm_run_step w .wake =
      { fsm := { w.fsm with
          event := w.fsm.event - 1
          msg := { w.fsm.msg with state := w.fsm.msg.dst }
          confirm := false },
        log := w.log ++ [⟨WLAN_PTRACKER_NOTIFY_SCENE_CHANGE, w.fsm.msg,
          { w.fsm.msg with state := w.fsm.msg.dst }⟩] } := by
  unfold fsm_run_step
  simp [hth, wake_eq bus_record w.fsm [] hev, hc, bus_record]

theorem run_step_wake_prepare (w : fsm_world) (hth : w.fsm.fsm_thread = true)
    (hev : w.fsm.event ≠ 0) (hc : w.fsm.confirm = false) :
    fsm_run_step w .wake =
      { fsm := { w.fsm with event := w.fsm.event - 1, confirm := true },
        log := w.log ++ [⟨WLAN_PTRACKER_NOTIFY_SCENE_CHANGE_PREPARE, w.fsm.msg, w.fsm.msg⟩] } := by
  unfold fsm_run_step
  simp [hth, wake_eq bus_record w.fsm [] hev, hc, bus_record]

theorem run_step_wake_blocked (w : fsm_world)
    (h : w.fsm.fsm_thread = false ∨ w.fsm.event = 0) : fsm_run_step w .wake = w := by
  unfold fsm_run_step
  rcases h with h | h
  · simp [h]
  · simp [wake_blocked bus_record w.fsm [] h]

theorem run_step_mono (w : fsm_world) (s : fsm_input) (hs : no_suspend s)
    (hI : w.fsm.msg.state ≤ w.fsm.msg.dst) :
    w.fsm.msg.state ≤ (fsm_run_step w s).fsm.msg.state ∧
    (fsm_run_step w s).fsm.msg.state ≤ (fsm_run_step w s).fsm.msg.dst := by
  cases s with
  | decision tp type =>
    have hst := decision_state w.fsm tp type
    have hdst := decision_dst_ge w.fsm tp type hs hI
    show w.fsm.msg.state ≤ (scenes_fsm_decision w.fsm tp type).msg.state ∧
      (scenes_fsm_decision w.fsm tp type).msg.state ≤ (scenes_fsm_decision w.fsm tp type).msg.dst
    rw [hst]
    exact ⟨Nat.le_refl _, hdst⟩
  | wake =>
    by_cases hb : w.fsm.fsm_thread = false ∨ w.fsm.event = 0
    · rw [run_step_wake_blocked w hb]
      exact ⟨Nat.le_refl _, hI⟩
    · have hth : w.fsm.fsm_thread = true := by
        cases h : w.fsm.fsm_thread with
        | false => exact absurd (Or.inl h) hb
        | true => rfl
      have hev : w.fsm.event ≠ 0 := fun h => hb (Or.inr h)
      cases hc : w.fsm.confirm with
      | true =>
        rw [run_step_wake_commit w hth hev hc]
        exact ⟨hI, Nat.le_refl _⟩
      | false =>
        rw [run_step_wake_prepare w hth hev hc]
        exact ⟨Nat.le_refl _, hI⟩

theorem run_mono (steps : List fsm_input) : ∀ w : fsm_world,
    (∀ s, s ∈ steps → no_suspend s) → w.fsm.msg.state ≤ w.fsm.msg.dst →
    w.fsm.msg.state ≤ (fsm_run w steps).fsm.msg.state ∧
    (fsm_run w steps).fsm.msg.state ≤ (fsm_run w steps).fsm.msg.dst := by
  induction steps with
  | nil =>
    intro w _ hI
    exact ⟨Nat.le_refl _, hI⟩
  | cons s rest ih =>
    intro w hs hI
    have h1 := run_step_mono w s (hs s (List.mem_cons_self s rest)) hI
    have h2 := ih (fsm_run_step w s) (fun t ht => hs t (List.mem_cons_of_mem s ht)) h1.2
    show w.fsm.msg.state ≤ (fsm_run (fsm_run_step w s) rest).fsm.msg.state ∧ _
    exact ⟨Nat.le_trans h1.1 h2.1, h2.2⟩

theorem run_append (w : fsm_world) (steps1 steps2 : List fsm_input) :
    fsm_run w (steps1 ++ steps2) = fsm_run (fsm_run w steps1) steps2 := by
  unfold fsm_run
  rw [List.foldl_append]

theorem start_state (fsm : wlan_ptracker_fsm) (register_ret : Int) (thread_err : Option Int) :
    (fsm_start fsm register_ret thread_err).fsm.msg.state = WLAN_SCENE_IDLE ∧
    (fsm_start fsm register_ret thread_err).fsm.msg.dst = WLAN_SCENE_IDLE ∧
    (fsm_start fsm register_ret thread_err).fsm.confirm = true ∧
    (fsm_start fsm register_ret thread_err).log = [] := by
  unfold fsm_start scenes_fsm_init
  by_cases hr : register_ret ≠ 0
  · simp [hr]
  · cases thread_err <;> simp [hr]

/-! ## C3: without Suspend the committed state never goes down -/

/-- C3: every transition armed by `scenes_fsm_decision` with a reason other
than Suspend has dst at or above the committed state, and along every run from
`scenes_fsm_init` made of decisions and worker wakes in which no decision has
reason Suspend, the committed state never decreases. -/
theorem scenes_fsm_never_downgrades :
    (∀ (fsm : wlan_ptracker_fsm) (tp : tp_monitor_stats) (type : Nat),
      type ≠ WLAN_PTRACKER_NOTIFY_SUSPEND →
      (scenes_fsm_decision fsm tp type).event = fsm.event + 1 →
      fsm.msg.state ≤ (scenes_fsm_decision fsm tp type).msg.dst) ∧
    (∀ (fsm : wlan_ptracker_fsm) (register_ret : Int) (thread_err : Option Int)
      (steps1 steps2 : List fsm_input),
      (∀ s, s ∈ steps1 ++ steps2 → no_suspend s) →
      (fsm_run (fsm_start fsm register_ret thread_err) steps1).fsm.msg.state
        ≤ (fsm_run (fsm_start fsm register_ret thread_err) (steps1 ++ steps2)).fsm.msg.state) := by
  constructor
  · intro fsm tp type hs harm
    cases hrun : fsm.fsm_thread with
    | false =>
      rw [decision_stopped fsm tp type hrun] at harm
      omega
    | true =>
      by_cases ha : decision_arms fsm tp type
      · rw [decision_armed fsm tp type hrun ha]
        show fsm.msg.state ≤ (scenes_condition_get fsm.conditions tp fsm.msg).1
        by_contra hlt
        exact ha.2 ⟨by omega, hs⟩
      · rw [decision_idle fsm tp type hrun ha] at harm
        simp at harm
  · intro fsm register_ret thread_err steps1 steps2 hs
    obtain ⟨h1, h2, _, _⟩ := start_state fsm register_ret thread_err
    have hI0 : (fsm_start fsm register_ret thread_err).fsm.msg.state
        ≤ (fsm_start fsm register_ret thread_err).fsm.msg.dst := by rw [h1, h2]
    have hA := run_mono steps1 (fsm_start fsm register_ret thread_err)
      (fun s hm => hs s (List.mem_append_left steps2 hm)) hI0
    rw [run_append]
    exact (run_mono steps2 _ (fun s hm => hs s (List.mem_append_right steps1 hm)) hA.2).1

/-- C3 at a concrete run: a sample of 5000 Kbits/second arms a step up to Web,
and after it is committed a sample of 500 Kbits/second leaves Web in place. -/
theorem scenes_fsm_never_downgrades_witness :
    fsm_ready.msg.state ≤
      (scenes_fsm_decision fsm_ready tp_web WLAN_PTRACKER_NOTIFY_TP).msg.dst ∧
    (fsm_run (fsm_start fsm_zero 0 none) [.decision tp_web WLAN_PTRACKER_NOTIFY_TP, .wake]).fsm.msg.state
      ≤ (fsm_run (fsm_start fsm_zero 0 none)
          ([.decision tp_web WLAN_PTRACKER_NOTIFY_TP, .wake]
            ++ [.decision tp_idle WLAN_PTRACKER_NOTIFY_TP, .wake])).fsm.msg.state :=
  ⟨scenes_fsm_never_downgrades.1 fsm_ready tp_web WLAN_PTRACKER_NOTIFY_TP (by decide) (by decide),
    scenes_fsm_never_downgrades.2 fsm_zero 0 none
      [.decision tp_web WLAN_PTRACKER_NOTIFY_TP, .wake]
      [.decision tp_idle WLAN_PTRACKER_NOTIFY_TP, .wake]
      (by
        intro s hm
        simp only [List.cons_append, List.nil_append, List.mem_cons, List.mem_singleton,
          List.not_mem_nil, or_false] at hm
        rcases hm with rfl | rfl | rfl | rfl <;> simp [no_suspend, WLAN_PTRACKER_NOTIFY_TP,
          WLAN_PTRACKER_NOTIFY_SUSPEND])⟩

/-! ## C5: what one wake of the worker does -/

/-- C5 fails as stated: the worker of `fsm_armed` has its phase flag set
(confirmed) and Web committed; its wake dispatches SceneChange, not
SceneChangePrepare, moves the committed state to dst (Streaming) and clears
the flag. -/
theorem fsm_thread_confirmed_wake_commits :
    fsm_armed.confirm = true ∧ fsm_armed.msg.state = WLAN_SCENE_WEB ∧
    (fsm_thread_iter bus_record false fsm_armed []).map
        (fun r => (r.2, r.1.msg.state, r.1.confirm))
      = some ([(WLAN_PTRACKER_NOTIFY_SCENE_CHANGE, fsm_armed.msg)], WLAN_SCENE_YOUTUBE, false) ∧
    WLAN_PTRACKER_NOTIFY_SCENE_CHANGE ≠ WLAN_PTRACKER_NOTIFY_SCENE_CHANGE_PREPARE ∧
    WLAN_SCENE_YOUTUBE ≠ WLAN_SCENE_WEB := by
  decide

/-- C5, amended: one wake of `fsm_thread` with no stop pending and a completion
to take does the following: if the phase flag is set (confirmed), it dispatches
SceneChange with the message as armed, then sets the committed state to dst and
clears the flag; otherwise it dispatches SceneChangePrepare and sets the flag,
leaving the committed state and the whole message unchanged. -/
theorem fsm_thread_wake_phases {σ : Type}
    (call_chain : Nat → wlan_scene_event → σ → σ × Int) (fsm : wlan_ptracker_fsm) (env : σ)
    (hev : fsm.event ≠ 0) :
    (fsm.confirm = true →
      fsm_thread_iter call_chain false fsm env =
        some ({ fsm with
            event := fsm.event - 1
            msg := { fsm.msg with state := fsm.msg.dst }
            confirm := false },
          (call_chain WLAN_PTRACKER_NOTIFY_SCENE_CHANGE fsm.msg env).1)) ∧
    (fsm.confirm = false →
      fsm_thread_iter call_chain false fsm env =
        some ({ fsm with event := fsm.event - 1, confirm := true },
          (call_chain WLAN_PTRACKER_NOTIFY_SCENE_CHANGE_PREPARE fsm.msg env).1)) := by
  constructor
  · intro hc
    rw [wake_eq call_chain fsm env hev, if_pos hc]
  · intro hc
    rw [wake_eq call_chain fsm env hev, if_neg (by simp [hc])]

/-- C5, amended, at a concrete worker: the commit wake of `fsm_armed`. -/
theorem fsm_thread_wake_phases_witness :
    fsm_armed.event ≠ 0 ∧ fsm_armed.confirm = true ∧
    fsm_thread_iter bus_record false fsm_armed [] =
      some ({ fsm_armed with
          event := fsm_armed.event - 1
          msg := { fsm_armed.msg with state := fsm_armed.msg.dst }
          confirm := false },
        (bus_record WLAN_PTRACKER_NOTIFY_SCENE_CHANGE fsm_armed.msg []).1) :=
  ⟨by decide, rfl, (fsm_thread_wake_phases bus_record fsm_armed [] (by decide)).1 rfl⟩

/-! ## C4: the dispatches of a run -/

theorem getElem?_snoc {α : Type} (l : List α) (a x : α) (k : Nat)
    (h : (l ++ [a])[k]? = some x) :
    (k < l.length ∧ l[k]? = some x) ∨ (k = l.length ∧ x = a) := by
  rcases Nat.lt_or_ge k l.length with hlt | hge
  · left
    rw [List.getElem?_append_left hlt] at h
    exact ⟨hlt, h⟩
  · right
    rw [List.getElem?_append_right hge] at h
    have h0 : k - l.length = 0 := by
      by_contra hne
      rw [List.getElem?_eq_none (by simp; omega)] at h
      exact Option.noConfusion h
    rw [h0] at h
    simp at h
    exact ⟨by omega, h.symm⟩

theorem run_inv_snoc (w : fsm_world) (fsm2 : wlan_ptracker_fsm) (a : wake_record)
    (hinv : run_inv w)
    (hflag : fsm2.confirm = true ↔ (w.log.length + 1) % 2 = 0)
    (hseen : a.seen.state = w.fsm.msg.state)
    (hafter : fsm2.msg.state = a.after.state)
    (heven : w.log.length % 2 = 0 → a.event = WLAN_PTRACKER_NOTIFY_SCENE_CHANGE
      ∧ a.after = { a.seen with state := a.seen.dst })
    (hodd : w.log.length % 2 = 1 → a.event = WLAN_PTRACKER_NOTIFY_SCENE_CHANGE_PREPARE
      ∧ a.after = a.seen) :
    run_inv { fsm := fsm2, log := w.log ++ [a] } := by
  obtain ⟨_, hnil, hall⟩ := hinv
  refine ⟨?_, ?_, ?_⟩
  · simpa using hflag
  · intro h
    simp at h
  · intro k r hk
    rcases getElem?_snoc w.log a r k hk with ⟨hlt, hkr⟩ | ⟨hkl, hra⟩
    · obtain ⟨h1, h2, h3, h4, h5⟩ := hall k r hkr
      refine ⟨h1, h2, h3, ?_, ?_⟩
      · intro nxt hn
        rcases getElem?_snoc w.log a nxt (k + 1) hn with ⟨_, hn2⟩ | ⟨hkl, hna⟩
        · exact h4 nxt hn2
        · subst hna
          rw [hseen]
          exact h5 (List.getElem?_eq_none (by omega))
      · intro hn
        have hlen := List.getElem?_eq_none_iff.mp hn
        simp only [List.length_append, List.length_singleton] at hlen
        omega
    · subst hra
      subst hkl
      refine ⟨heven, hodd, ?_, ?_, ?_⟩
      · intro h0
        rw [hseen]
        exact hnil (List.length_eq_zero.mp h0)
      · intro nxt hn
        rw [List.getElem?_eq_none (by simp)] at hn
        exact Option.noConfusion hn
      · intro _
        exact hafter

theorem run_inv_decision (w : fsm_world) (tp : tp_monitor_stats) (type : Nat)
    (hinv : run_inv w) : run_inv (fsm_run_step w (.decision tp type)) := by
  obtain ⟨hflag, hnil, hall⟩ := hinv
  have hst := decision_state w.fsm tp type
  have hcf := decision_confirm w.fsm tp type
  refine ⟨?_, ?_, ?_⟩
  · show (scenes_fsm_decision w.fsm tp type).confirm = true ↔ w.log.length % 2 = 0
    rw [hcf]
    exact hflag
  · intro h
    show (scenes_fsm_decision w.fsm tp type).msg.state = WLAN_SCENE_IDLE
    rw [hst]
    exact hnil h
  · intro k r hk
    obtain ⟨h1, h2, h3, h4, h5⟩ := hall k r hk
    refine ⟨h1, h2, h3, h4, ?_⟩
    intro hn
    show (scenes_fsm_decision w.fsm tp type).msg.state = r.after.state
    rw [hst]
    exact h5 hn

theorem run_inv_step (w : fsm_world) (s : fsm_input) (hinv : run_inv w) :
    run_inv (fsm_run_step w s) := by
  cases s with
  | decision tp type => exact run_inv_decision w tp type hinv
  | wake =>
    by_cases hb : w.fsm.fsm_thread = false ∨ w.fsm.event = 0
    · rw [run_step_wake_blocked w hb]
      exact hinv
    · have hth : w.fsm.fsm_thread = true := by
        cases h : w.fsm.fsm_thread with
        | false => exact absurd (Or.inl h) hb
        | true => rfl
      have hev : w.fsm.event ≠ 0 := fun h => hb (Or.inr h)
      have hflag := hinv.1
      cases hc : w.fsm.confirm with
      | true =>
        rw [run_step_wake_commit w hth hev hc]
        have hlen : w.log.length % 2 = 0 := hflag.mp hc
        apply run_inv_snoc w _ _ hinv
        · constructor
          · intro h; exact absurd h (by simp)
          · intro h; omega
        · rfl
        · rfl
        · intro _; exact ⟨rfl, rfl⟩
        · intro h; omega
      | false =>
        rw [run_step_wake_prepare w hth hev hc]
        have hlen : w.log.length % 2 = 1 := by
          have : ¬ w.log.length % 2 = 0 := fun h => by
            have := hflag.mpr h
            rw [hc] at this
            exact Bool.noConfusion this
          omega
        apply run_inv_snoc w _ _ hinv
        · constructor
          · intro _; omega
          · intro _; rfl
        · rfl
        · rfl
        · intro h; omega
        · intro _; exact ⟨rfl, rfl⟩

theorem run_inv_run (steps : List fsm_input) : ∀ w : fsm_world, run_inv w →
    run_inv (fsm_run w steps) := by
  induction steps with
  | nil => intro w h; exact h
  | cons s rest ih =>
    intro w h
    exact ih (fsm_run_step w s) (run_inv_step w s h)

theorem run_inv_start (fsm : wlan_ptracker_fsm) (register_ret : Int)
    (thread_err : Option Int) : run_inv (fsm_start fsm register_ret thread_err) := by
  obtain ⟨h1, _, h3, h4⟩ := start_state fsm register_ret thread_err
  refine ⟨?_, fun _ => h1, ?_⟩
  · rw [h3, h4]
    simp
  · intro k r hk
    rw [h4] at hk
    simp at hk

theorem decision_event (fsm : wlan_ptracker_fsm) (tp : tp_monitor_stats) (type : Nat) :
    (scenes_fsm_decision fsm tp type).event
      = fsm.event + (if (scenes_fsm_decision fsm tp type).event = fsm.event + 1 then 1 else 0) := by
  cases hrun : fsm.fsm_thread with
  | false =>
    rw [decision_stopped fsm tp type hrun]
    simp
  | true =>
    by_cases harm : decision_arms fsm tp type
    · rw [decision_armed fsm tp type hrun harm]
      simp
    · rw [decision_idle fsm tp type hrun harm]
      simp

theorem arm_count_step (w : fsm_world) (s : fsm_input) :
    (fsm_run_step w s).log.length + (fsm_run_step w s).fsm.event
      = w.log.length + w.fsm.event + fsm_arms w s := by
  cases s with
  | decision tp type =>
    have h := decision_event w.fsm tp type
    show w.log.length + (scenes_fsm_decision w.fsm tp type).event
      = w.log.length + w.fsm.event
        + (if (scenes_fsm_decision w.fsm tp type).event = w.fsm.event + 1 then 1 else 0)
    omega
  | wake =>
    show _ = w.log.length + w.fsm.event + 0
    by_cases hb : w.fsm.fsm_thread = false ∨ w.fsm.event = 0
    · rw [run_step_wake_blocked w hb]
      rfl
    · have hth : w.fsm.fsm_thread = true := by
        cases h : w.fsm.fsm_thread with
        | false => exact absurd (Or.inl h) hb
        | true => rfl
      have hev : w.fsm.event ≠ 0 := fun h => hb (Or.inr h)
      cases hc : w.fsm.confirm with
      | true =>
        rw [run_step_wake_commit w hth hev hc]
        simp only [List.length_append, List.length_singleton]
        omega
      | false =>
        rw [run_step_wake_prepare w hth hev hc]
        simp only [List.length_append, List.length_singleton]
        omega

theorem arm_count_run (steps : List fsm_input) : ∀ w : fsm_world,
    (fsm_run w steps).log.length + (fsm_run w steps).fsm.event
      = w.log.length + w.fsm.event + fsm_arm_count w steps := by
  induction steps with
  | nil => intro w; rfl
  | cons s rest ih =>
    intro w
    have h1 := arm_count_step w s
    have h2 := ih (fsm_run_step w s)
    show (fsm_run (fsm_run_step w s) rest).log.length
        + (fsm_run (fsm_run_step w s) rest).fsm.event
      = w.log.length + w.fsm.event + (fsm_arms w s + fsm_arm_count (fsm_run_step w s) rest)
    omega

theorem run_snoc (w : fsm_world) (steps : List fsm_input) (s : fsm_input) :
    fsm_run w (steps ++ [s]) = fsm_run_step (fsm_run w steps) s := by
  rw [run_append]
  rfl

/-- C4 fails as stated: after Web is committed, the sample of 20000
Kbits/second arms the transition Web to Streaming (one completion pending).
Its wake makes one dispatch only, SceneChangePrepare; no SceneChange follows
for it however often the worker is given the turn, and the committed state
stays Web. The next armed transition, to Throughput, gets the SceneChange
alone and is committed: Streaming never is. -/
theorem armed_transition_one_dispatch :
    (fsm_run (fsm_start fsm_zero 0 none) steps_arm_two).fsm.msg.src = WLAN_SCENE_WEB ∧
    (fsm_run (fsm_start fsm_zero 0 none) steps_arm_two).fsm.msg.dst = WLAN_SCENE_YOUTUBE ∧
    (fsm_run (fsm_start fsm_zero 0 none) steps_arm_two).fsm.event = 1 ∧
    (fsm_run (fsm_start fsm_zero 0 none) steps_arm_two).log.map (fun r => r.event)
      = [WLAN_PTRACKER_NOTIFY_SCENE_CHANGE] ∧
    (fsm_run (fsm_start fsm_zero 0 none) (steps_arm_two ++ [.wake])).log.map
        (fun r => r.event)
      = [WLAN_PTRACKER_NOTIFY_SCENE_CHANGE, WLAN_PTRACKER_NOTIFY_SCENE_CHANGE_PREPARE] ∧
    (fsm_run (fsm_start fsm_zero 0 none) (steps_arm_two ++ [.wake, .wake, .wake])).log.map
        (fun r => r.event)
      = [WLAN_PTRACKER_NOTIFY_SCENE_CHANGE, WLAN_PTRACKER_NOTIFY_SCENE_CHANGE_PREPARE] ∧
    (fsm_run (fsm_start fsm_zero 0 none)
        (steps_arm_two ++ [.wake, .wake, .wake])).fsm.msg.state = WLAN_SCENE_WEB ∧
    (fsm_run (fsm_start fsm_zero 0 none) steps_skip).log.map
        (fun r => (r.event, r.seen.dst, r.after.state))
      = [(WLAN_PTRACKER_NOTIFY_SCENE_CHANGE, WLAN_SCENE_WEB, WLAN_SCENE_WEB),
         (WLAN_PTRACKER_NOTIFY_SCENE_CHANGE_PREPARE, WLAN_SCENE_YOUTUBE, WLAN_SCENE_WEB),
         (WLAN_PTRACKER_NOTIFY_SCENE_CHANGE, WLAN_SCENE_TPUT, WLAN_SCENE_TPUT)] ∧
    (fsm_run (fsm_start fsm_zero 0 none) steps_skip).fsm.msg.state = WLAN_SCENE_TPUT := by
  decide

/-- C4, amended: in every run from `scenes_fsm_init` (decisions and worker
wakes in any order), each wake of the worker that has a completion to take
makes exactly one dispatch: SceneChange when an even number of dispatches has
been made so far, SceneChangePrepare otherwise, with the message as it stands;
only the SceneChange wake updates the committed state, to dst and after the
dispatch. A wake with nothing pending and a decision dispatch nothing and
leave the committed state alone. The dispatches made and the completions
pending add up to the transitions armed: each armed transition gets one
dispatch. So the first update of the committed state follows exactly one
SceneChange dispatch, made with the state still Idle, and every later update
follows exactly two dispatches since the update before it, one
SceneChangePrepare then one SceneChange, made by two wakes for two armed
transitions. -/
theorem fsm_thread_dispatch_pattern (fsm : wlan_ptracker_fsm) (register_ret : Int)
    (thread_err : Option Int) (steps : List fsm_input) :
    ((fsm_run (fsm_start fsm register_ret thread_err) steps).fsm.fsm_thread = true →
      (fsm_run (fsm_start fsm register_ret thread_err) steps).fsm.event ≠ 0 →
      (fsm_run (fsm_start fsm register_ret thread_err) (steps ++ [.wake])).log
        = (fsm_run (fsm_start fsm register_ret thread_err) steps).log ++
          [{ event :=
               if (fsm_run (fsm_start fsm register_ret thread_err) steps).log.length % 2 = 0
               then WLAN_PTRACKER_NOTIFY_SCENE_CHANGE
               else WLAN_PTRACKER_NOTIFY_SCENE_CHANGE_PREPARE
             seen := (fsm_run (fsm_start fsm register_ret thread_err) steps).fsm.msg
             after :=
               if (fsm_run (fsm_start fsm register_ret thread_err) steps).log.length % 2 = 0
               then { (fsm_run (fsm_start fsm register_ret thread_err) steps).fsm.msg with
                 state := (fsm_run (fsm_start fsm register_ret thread_err) steps).fsm.msg.dst }
               else (fsm_run (fsm_start fsm register_ret thread_err) steps).fsm.msg }] ∧
      (fsm_run (fsm_start fsm register_ret thread_err) (steps ++ [.wake])).fsm.msg
        = (if (fsm_run (fsm_start fsm register_ret thread_err) steps).log.length % 2 = 0
           then { (fsm_run (fsm_start fsm register_ret thread_err) steps).fsm.msg with
             state := (fsm_run (fsm_start fsm register_ret thread_err) steps).fsm.msg.dst }
           else (fsm_run (fsm_start fsm register_ret thread_err) steps).fsm.msg) ∧
      (fsm_run (fsm_start fsm register_ret thread_err) (steps ++ [.wake])).fsm.event
        = (fsm_run (fsm_start fsm register_ret thread_err) steps).fsm.event - 1) ∧
    (((fsm_run (fsm_start fsm register_ret thread_err) steps).fsm.fsm_thread = false ∨
        (fsm_run (fsm_start fsm register_ret thread_err) steps).fsm.event = 0) →
      (fsm_run (fsm_start fsm register_ret thread_err) (steps ++ [.wake])).log
        = (fsm_run (fsm_start fsm register_ret thread_err) steps).log ∧
      (fsm_run (fsm_start fsm register_ret thread_err) (steps ++ [.wake])).fsm.msg
        = (fsm_run (fsm_start fsm register_ret thread_err) steps).fsm.msg) ∧
    (∀ tp type,
      (fsm_run (fsm_start fsm register_ret thread_err) (steps ++ [.decision tp type])).log
        = (fsm_run (fsm_start fsm register_ret thread_err) steps).log ∧
      (fsm_run (fsm_start fsm register_ret thread_err)
          (steps ++ [.decision tp type])).fsm.msg.state
        = (fsm_run (fsm_start fsm register_ret thread_err) steps).fsm.msg.state) ∧
    ((fsm_run (fsm_start fsm register_ret thread_err) steps).log.length
        + (fsm_run (fsm_start fsm register_ret thread_err) steps).fsm.event
      = (fsm_start fsm register_ret thread_err).fsm.event
        + fsm_arm_count (fsm_start fsm register_ret thread_err) steps) ∧
    (∀ k r, (fsm_run (fsm_start fsm register_ret thread_err) steps).log[k]? = some r →
      (k % 2 = 0 → r.event = WLAN_PTRACKER_NOTIFY_SCENE_CHANGE
        ∧ r.after = { r.seen with state := r.seen.dst }) ∧
      (k % 2 = 1 → r.event = WLAN_PTRACKER_NOTIFY_SCENE_CHANGE_PREPARE ∧ r.after = r.seen) ∧
      (k = 0 → r.seen.state = WLAN_SCENE_IDLE) ∧
      (∀ nxt, (fsm_run (fsm_start fsm register_ret thread_err) steps).log[k + 1]? = some nxt →
        nxt.seen.state = r.after.state) ∧
      ((fsm_run (fsm_start fsm register_ret thread_err) steps).log[k + 1]? = none →
        (fsm_run (fsm_start fsm register_ret thread_err) steps).fsm.msg.state
          = r.after.state)) := by
  have hinv := run_inv_run steps _ (run_inv_start fsm register_ret thread_err)
  have hcount := arm_count_run steps (fsm_start fsm register_ret thread_err)
  have hlog0 : (fsm_start fsm register_ret thread_err).log = [] :=
    (start_state fsm register_ret thread_err).2.2.2
  simp only [run_snoc]
  generalize fsm_run (fsm_start fsm register_ret thread_err) steps = w at hinv hcount
  refine ⟨?_, ?_, ?_, ?_, hinv.2.2⟩
  · intro hth hev
    cases hc : w.fsm.confirm with
    | true =>
      have hlen : w.log.length % 2 = 0 := hinv.1.mp hc
      rw [run_step_wake_commit w hth hev hc, if_pos hlen, if_pos hlen]
      exact ⟨rfl, rfl, rfl⟩
    | false =>
      have hlen : ¬ w.log.length % 2 = 0 := fun h => by
        have := hinv.1.mpr h
        rw [hc] at this
        exact Bool.noConfusion this
      rw [run_step_wake_prepare w hth hev hc, if_neg hlen, if_neg hlen]
      exact ⟨rfl, rfl, rfl⟩
  · intro hb
    rw [run_step_wake_blocked w hb]
    exact ⟨rfl, rfl⟩
  · intro tp type
    exact ⟨rfl, decision_state w.fsm tp type⟩
  · rw [hcount, hlog0]
    simp

/-- C4, amended, at a concrete run: after `steps_arm_two` one dispatch has
been made and one completion is pending; the wake that follows makes the
second dispatch, SceneChangePrepare, and leaves Web committed. -/
theorem fsm_thread_dispatch_pattern_witness :
    (fsm_run (fsm_start fsm_zero 0 none) steps_arm_two).fsm.fsm_thread = true ∧
    (fsm_run (fsm_start fsm_zero 0 none) steps_arm_two).fsm.event ≠ 0 ∧
    (fsm_run (fsm_start fsm_zero 0 none) steps_arm_two).log.length % 2 = 1 ∧
    (fsm_run (fsm_start fsm_zero 0 none) (steps_arm_two ++ [.wake])).fsm.msg
      = (if (fsm_run (fsm_start fsm_zero 0 none) steps_arm_two).log.length % 2 = 0
         then { (fsm_run (fsm_start fsm_zero 0 none) steps_arm_two).fsm.msg with
           state := (fsm_run (fsm_start fsm_zero 0 none) steps_arm_two).fsm.msg.dst }
         else (fsm_run (fsm_start fsm_zero 0 none) steps_arm_two).fsm.msg) ∧
    (fsm_run (fsm_start fsm_zero 0 none) (steps_arm_two ++ [.wake])).fsm.msg.state
      = WLAN_SCENE_WEB ∧
    (fsm_run (fsm_start fsm_zero 0 none) steps_skip).log.length
        + (fsm_run (fsm_start fsm_zero 0 none) steps_skip).fsm.event
      = (fsm_start fsm_zero 0 none).fsm.event
        + fsm_arm_count (fsm_start fsm_zero 0 none) steps_skip ∧
    fsm_arm_count (fsm_start fsm_zero 0 none) steps_skip = 3 :=
  ⟨by decide, by decide, by decide,
    ((fsm_thread_dispatch_pattern fsm_zero 0 none steps_arm_two).1
      (by decide) (by decide)).2.1,
    by decide,
    (fsm_thread_dispatch_pattern fsm_zero 0 none steps_skip).2.2.2.1,
    by decide⟩

/-! ## C6: throughput samples, one wake per armed transition -/

theorem tp_arms_iff (fsm : wlan_ptracker_fsm) (tp : tp_monitor_stats) :
    decision_arms fsm tp WLAN_PTRACKER_NOTIFY_TP ↔
      fsm.msg.state < (scenes_condition_get fsm.conditions tp fsm.msg).1 := by
  unfold decision_arms
  have h1 : WLAN_PTRACKER_NOTIFY_TP ≠ WLAN_PTRACKER_NOTIFY_STA_CHANGE := by decide
  have h2 : WLAN_PTRACKER_NOTIFY_TP ≠ WLAN_PTRACKER_NOTIFY_SUSPEND := by decide
  constructor
  · intro ⟨ha, hb⟩
    by_contra hlt
    rcases Nat.lt_or_eq_of_le (Nat.le_of_not_lt hlt) with h | h
    · exact hb ⟨h, h2⟩
    · exact ha ⟨h, h1⟩
  · intro hlt
    exact ⟨fun h => by omega, fun h => by omega⟩

theorem sample_idle (w : fsm_world) (tp : tp_monitor_stats)
    (hth : w.fsm.fsm_thread = true) (hev : w.fsm.event = 0)
    (hle : (scenes_condition_get w.fsm.conditions tp w.fsm.msg).1 ≤ w.fsm.msg.state) :
    fsm_sample w tp =
      { fsm := { w.fsm with msg := (scenes_condition_get w.fsm.conditions tp w.fsm.msg).2 },
        log := w.log } := by
  have hno : ¬ decision_arms w.fsm tp WLAN_PTRACKER_NOTIFY_TP := by
    rw [tp_arms_iff]; omega
  have hd := decision_idle w.fsm tp WLAN_PTRACKER_NOTIFY_TP hth hno
  have h2 : WLAN_PTRACKER_NOTIFY_TP ≠ WLAN_PTRACKER_NOTIFY_SUSPEND := by decide
  rw [if_neg h2] at hd
  show fsm_run_step (fsm_run_step w (.decision tp WLAN_PTRACKER_NOTIFY_TP)) .wake = _
  rw [run_step_wake_blocked _ (Or.inr (by
    show (scenes_fsm_decision w.fsm tp WLAN_PTRACKER_NOTIFY_TP).event = 0
    rw [hd]; exact hev))]
  show ({ fsm := scenes_fsm_decision w.fsm tp WLAN_PTRACKER_NOTIFY_TP, log := w.log } :
    fsm_world) = _
  rw [hd]

theorem sample_armed (w : fsm_world) (tp : tp_monitor_stats)
    (hth : w.fsm.fsm_thread = true) (hev : w.fsm.event = 0)
    (hlt : w.fsm.msg.state < (scenes_condition_get w.fsm.conditions tp w.fsm.msg).1) :
    (scenes_fsm_decision w.fsm tp WLAN_PTRACKER_NOTIFY_TP).fsm_thread = true ∧
    (scenes_fsm_decision w.fsm tp WLAN_PTRACKER_NOTIFY_TP).event = 1 ∧
    (scenes_fsm_decision w.fsm tp WLAN_PTRACKER_NOTIFY_TP).confirm = w.fsm.confirm ∧
    (scenes_fsm_decision w.fsm tp WLAN_PTRACKER_NOTIFY_TP).conditions = w.fsm.conditions ∧
    (scenes_fsm_decision w.fsm tp WLAN_PTRACKER_NOTIFY_TP).msg.state = w.fsm.msg.state ∧
    (scenes_fsm_decision w.fsm tp WLAN_PTRACKER_NOTIFY_TP).msg.dst
      = (scenes_condition_get w.fsm.conditions tp w.fsm.msg).1 := by
  have ha : decision_arms w.fsm tp WLAN_PTRACKER_NOTIFY_TP := (tp_arms_iff _ _).mpr hlt
  rw [decision_armed w.fsm tp WLAN_PTRACKER_NOTIFY_TP hth ha]
  refine ⟨hth, ?_, rfl, rfl, condition_get_state _ _ _, rfl⟩
  show w.fsm.event + 1 = 1
  rw [hev]

theorem sample_commit (w : fsm_world) (tp : tp_monitor_stats)
    (hth : w.fsm.fsm_thread = true) (hev : w.fsm.event = 0)
    (hlt : w.fsm.msg.state < (scenes_condition_get w.fsm.conditions tp w.fsm.msg).1)
    (hc : w.fsm.confirm = true) :
    fsm_sample w tp =
      { fsm := { scenes_fsm_decision w.fsm tp WLAN_PTRACKER_NOTIFY_TP with
          event := (scenes_fsm_decision w.fsm tp WLAN_PTRACKER_NOTIFY_TP).event - 1
          msg := { (scenes_fsm_decision w.fsm tp WLAN_PTRACKER_NOTIFY_TP).msg with
            state := (scenes_fsm_decision w.fsm tp WLAN_PTRACKER_NOTIFY_TP).msg.dst }
          confirm := false },
        log := w.log ++ [⟨WLAN_PTRACKER_NOTIFY_SCENE_CHANGE,
          (scenes_fsm_decision w.fsm tp WLAN_PTRACKER_NOTIFY_TP).msg,
          { (scenes_fsm_decision w.fsm tp WLAN_PTRACKER_NOTIFY_TP).msg with
            state := (scenes_fsm_decision w.fsm tp WLAN_PTRACKER_NOTIFY_TP).msg.dst }⟩] } := by
  obtain ⟨a1, a2, a3, _, _, _⟩ := sample_armed w tp hth hev hlt
  exact run_step_wake_commit
    { fsm := scenes_fsm_decision w.fsm tp WLAN_PTRACKER_NOTIFY_TP, log := w.log } a1
    (by show _ ≠ 0; rw [a2]; decide) (a3.trans hc)

theorem sample_prepare (w : fsm_world) (tp : tp_monitor_stats)
    (hth : w.fsm.fsm_thread = true) (hev : w.fsm.event = 0)
    (hlt : w.fsm.msg.state < (scenes_condition_get w.fsm.conditions tp w.fsm.msg).1)
    (hc : w.fsm.confirm = false) :
    fsm_sample w tp =
      { fsm := { scenes_fsm_decision w.fsm tp WLAN_PTRACKER_NOTIFY_TP with
          event := (scenes_fsm_decision w.fsm tp WLAN_PTRACKER_NOTIFY_TP).event - 1
          confirm := true },
        log := w.log ++ [⟨WLAN_PTRACKER_NOTIFY_SCENE_CHANGE_PREPARE,
          (scenes_fsm_decision w.fsm tp WLAN_PTRACKER_NOTIFY_TP).msg,
          (scenes_fsm_decision w.fsm tp WLAN_PTRACKER_NOTIFY_TP).msg⟩] } := by
  obtain ⟨a1, a2, a3, _, _, _⟩ := sample_armed w tp hth hev hlt
  exact run_step_wake_prepare
    { fsm := scenes_fsm_decision w.fsm tp WLAN_PTRACKER_NOTIFY_TP, log := w.log } a1
    (by show _ ≠ 0; rw [a2]; decide) (a3.trans hc)

theorem sample_ready (w : fsm_world) (tp : tp_monitor_stats)
    (hth : w.fsm.fsm_thread = true) (hev : w.fsm.event = 0) :
    (fsm_sample w tp).fsm.fsm_thread = true ∧ (fsm_sample w tp).fsm.event = 0 ∧
    (fsm_sample w tp).fsm.conditions = w.fsm.conditions := by
  rcases Nat.lt_or_ge w.fsm.msg.state
    (scenes_condition_get w.fsm.conditions tp w.fsm.msg).1 with hlt | hge
  · obtain ⟨a1, a2, _, a4, _, _⟩ := sample_armed w tp hth hev hlt
    cases hc : w.fsm.confirm with
    | true =>
      rw [sample_commit w tp hth hev hlt hc]
      refine ⟨a1, ?_, a4⟩
      show (scenes_fsm_decision w.fsm tp WLAN_PTRACKER_NOTIFY_TP).event - 1 = 0
      rw [a2]
    | false =>
      rw [sample_prepare w tp hth hev hlt hc]
      refine ⟨a1, ?_, a4⟩
      show (scenes_fsm_decision w.fsm tp WLAN_PTRACKER_NOTIFY_TP).event - 1 = 0
      rw [a2]
  · rw [sample_idle w tp hth hev hge]
    exact ⟨hth, hev, rfl⟩

/-- The worker exists, no completion is pending and the table is the built-in
one: the state of the classifier between two samples. -/
theorem samples_ready (fsm : wlan_ptracker_fsm) (tps : List tp_monitor_stats) :
    (fsm_samples (fsm_start fsm 0 none) tps).fsm.fsm_thread = true ∧
    (fsm_samples (fsm_start fsm 0 none) tps).fsm.event = 0 ∧
    (fsm_samples (fsm_start fsm 0 none) tps).fsm.conditions = conditions ∧
    run_inv (fsm_samples (fsm_start fsm 0 none) tps) := by
  have key : ∀ (tps : List tp_monitor_stats) (w : fsm_world),
      (w.fsm.fsm_thread = true ∧ w.fsm.event = 0 ∧ w.fsm.conditions = conditions ∧ run_inv w) →
      ((fsm_samples w tps).fsm.fsm_thread = true ∧ (fsm_samples w tps).fsm.event = 0 ∧
        (fsm_samples w tps).fsm.conditions = conditions ∧ run_inv (fsm_samples w tps)) := by
    intro tps
    induction tps with
    | nil => intro w h; exact h
    | cons tp rest ih =>
      intro w ⟨hth, hev, hcond, hinv⟩
      apply ih (fsm_sample w tp)
      obtain ⟨b1, b2, b3⟩ := sample_ready w tp hth hev
      exact ⟨b1, b2, b3.trans hcond, run_inv_run _ w hinv⟩
  apply key tps
  refine ⟨?_, ?_, ?_, run_inv_start fsm 0 none⟩ <;> simp [fsm_start, scenes_fsm_init]

/-- C6 fails as stated: after the samples 500 and 5000 Kbits/second the
committed scene is Web and the flag is clear; the sample 20000 classifies to
Streaming and arms one wake, which only dispatches SceneChangePrepare: the
committed scene after that sample is still Web, not Streaming. -/
theorem third_sample_only_prepares :
    (scenes_condition_get conditions tp_youtube scenario_two.fsm.msg).1 = WLAN_SCENE_YOUTUBE ∧
    scenario_two.fsm.msg.state = WLAN_SCENE_WEB ∧
    scenario_three = fsm_sample scenario_two tp_youtube ∧
    scenario_three.fsm.msg.state = WLAN_SCENE_WEB ∧
    scenario_three.fsm.msg.state
      ≠ (scenes_condition_get conditions tp_youtube scenario_two.fsm.msg).1 ∧
    scenario_three.log.map (fun r => r.event)
      = [WLAN_PTRACKER_NOTIFY_SCENE_CHANGE, WLAN_PTRACKER_NOTIFY_SCENE_CHANGE_PREPARE] ∧
    scenario_three.fsm.event = 0 :=
  ⟨by decide, by decide, rfl, by decide, by decide, by decide, by decide⟩

/-- C6, amended: from `scenes_fsm_init` with the built-in table, after any
sequence of ThroughputSample evaluations each handled by the worker before the
next, a further sample that classifies to the committed scene or lower arms
nothing (no dispatch, committed scene and flag unchanged); one that classifies
higher arms one wake, which commits the classified scene when the phase flag is
set (an even number of wakes so far: dispatch SceneChange) and otherwise only
dispatches SceneChangePrepare, leaving the committed scene unchanged with dst
the classified scene. -/
theorem throughput_samples_progress (fsm : wlan_ptracker_fsm)
    (tps : List tp_monitor_stats) (tp : tp_monitor_stats) :
    ((scenes_condition_get conditions tp (fsm_samples (fsm_start fsm 0 none) tps).fsm.msg).1
        ≤ (fsm_samples (fsm_start fsm 0 none) tps).fsm.msg.state →
      (fsm_sample (fsm_samples (fsm_start fsm 0 none) tps) tp).fsm.msg.state
        = (fsm_samples (fsm_start fsm 0 none) tps).fsm.msg.state ∧
      (fsm_sample (fsm_samples (fsm_start fsm 0 none) tps) tp).log
        = (fsm_samples (fsm_start fsm 0 none) tps).log ∧
      (fsm_sample (fsm_samples (fsm_start fsm 0 none) tps) tp).fsm.confirm
        = (fsm_samples (fsm_start fsm 0 none) tps).fsm.confirm ∧
      (fsm_sample (fsm_samples (fsm_start fsm 0 none) tps) tp).fsm.event = 0) ∧
    ((fsm_samples (fsm_start fsm 0 none) tps).fsm.msg.state
        < (scenes_condition_get conditions tp (fsm_samples (fsm_start fsm 0 none) tps).fsm.msg).1 →
      (fsm_samples (fsm_start fsm 0 none) tps).log.length % 2 = 0 →
      (fsm_sample (fsm_samples (fsm_start fsm 0 none) tps) tp).fsm.msg.state
        = (scenes_condition_get conditions tp
            (fsm_samples (fsm_start fsm 0 none) tps).fsm.msg).1 ∧
      (fsm_sample (fsm_samples (fsm_start fsm 0 none) tps) tp).log.map (fun r => r.event)
        = (fsm_samples (fsm_start fsm 0 none) tps).log.map (fun r => r.event)
            ++ [WLAN_PTRACKER_NOTIFY_SCENE_CHANGE]) ∧
    ((fsm_samples (fsm_start fsm 0 none) tps).fsm.msg.state
        < (scenes_condition_get conditions tp (fsm_samples (fsm_start fsm 0 none) tps).fsm.msg).1 →
      (fsm_samples (fsm_start fsm 0 none) tps).log.length % 2 = 1 →
      (fsm_sample (fsm_samples (fsm_start fsm 0 none) tps) tp).fsm.msg.state
        = (fsm_samples (fsm_start fsm 0 none) tps).fsm.msg.state ∧
      (fsm_sample (fsm_samples (fsm_start fsm 0 none) tps) tp).fsm.msg.dst
        = (scenes_condition_get conditions tp
            (fsm_samples (fsm_start fsm 0 none) tps).fsm.msg).1 ∧
      (fsm_sample (fsm_samples (fsm_start fsm 0 none) tps) tp).log.map (fun r => r.event)
        = (fsm_samples (fsm_start fsm 0 none) tps).log.map (fun r => r.event)
            ++ [WLAN_PTRACKER_NOTIFY_SCENE_CHANGE_PREPARE]) := by
  obtain ⟨hth, hev, hcond, hinv⟩ := samples_ready fsm tps
  generalize fsm_samples (fsm_start fsm 0 none) tps = w at hth hev hcond hinv
  rw [← hcond]
  have hflag := hinv.1
  refine ⟨?_, ?_, ?_⟩
  · intro hle
    rw [sample_idle w tp hth hev hle]
    exact ⟨condition_get_state _ _ _, rfl, rfl, hev⟩
  · intro hlt hlen
    have hc : w.fsm.confirm = true := hflag.mpr hlen
    obtain ⟨_, _, _, _, _, a6⟩ := sample_armed w tp hth hev hlt
    rw [sample_commit w tp hth hev hlt hc]
    refine ⟨a6, ?_⟩
    simp
  · intro hlt hlen
    have hc : w.fsm.confirm = false := by
      cases h : w.fsm.confirm with
      | false => rfl
      | true => have := hflag.mp h; omega
    obtain ⟨_, _, _, _, a5, a6⟩ := sample_armed w tp hth hev hlt
    rw [sample_prepare w tp hth hev hlt hc]
    refine ⟨a5, a6, ?_⟩
    simp

/-- C6, amended, on the scenario of the specification: the samples 500, 5000,
20000 leave the committed scenes Idle, Web, Web; a second sample of 20000
commits Streaming; a drop back to 500 arms nothing. -/
theorem throughput_samples_progress_witness :
    (fsm_samples (fsm_start fsm_zero 0 none) [tp_idle]).fsm.msg.state = WLAN_SCENE_IDLE ∧
    scenario_two.fsm.msg.state = WLAN_SCENE_WEB ∧
    scenario_three.fsm.msg.state = WLAN_SCENE_WEB ∧
    (fsm_sample (fsm_samples (fsm_start fsm_zero 0 none) [tp_idle, tp_web]) tp_youtube).fsm.msg.dst
      = (scenes_condition_get conditions tp_youtube
          (fsm_samples (fsm_start fsm_zero 0 none) [tp_idle, tp_web]).fsm.msg).1 ∧
    scenario_four.fsm.msg.state = WLAN_SCENE_YOUTUBE ∧
    (fsm_sample (fsm_samples (fsm_start fsm_zero 0 none)
        [tp_idle, tp_web, tp_youtube, tp_youtube]) tp_idle).log
      = (fsm_samples (fsm_start fsm_zero 0 none) [tp_idle, tp_web, tp_youtube, tp_youtube]).log :=
  ⟨by decide, by decide, by decide,
    ((throughput_samples_progress fsm_zero [tp_idle, tp_web] tp_youtube).2.2
      (by decide) (by decide)).2.1,
    by decide,
    ((throughput_samples_progress fsm_zero [tp_idle, tp_web, tp_youtube, tp_youtube] tp_idle).1
      (by decide)).2.1⟩

/-! ## C7: the rate field of the message -/

/-- C7 fails as stated: with Web committed and rate 5000000 recorded for it, a
sample of 500 Kbits/second does not arm (the worker is not signalled, dst
stays Web), yet the call overwrites rate with 500000, which is not in the
interval of Web: the reachable state that results has a rate that did not
qualify its dst. -/
theorem idle_sample_overwrites_rate :
    (scenes_fsm_decision fsm_web tp_idle WLAN_PTRACKER_NOTIFY_TP).event = fsm_web.event ∧
    fsm_web.msg.dst = WLAN_SCENE_WEB ∧ fsm_web.msg.rate = 5000000 ∧
    (scenes_fsm_decision fsm_web tp_idle WLAN_PTRACKER_NOTIFY_TP).msg.dst = WLAN_SCENE_WEB ∧
    (scenes_fsm_decision fsm_web tp_idle WLAN_PTRACKER_NOTIFY_TP).msg.rate = 500000 ∧
    (scenes_fsm_decision fsm_web tp_idle WLAN_PTRACKER_NOTIFY_TP).msg.rate ≠ fsm_web.msg.rate ∧
    ¬ in_interval (conditions WLAN_SCENE_WEB)
        (scenes_fsm_decision fsm_web tp_idle WLAN_PTRACKER_NOTIFY_TP).msg.rate := by
  decide

/-- C7, amended: with a running worker, a call of `scenes_fsm_decision` that
returns without arming leaves state, src, dst and reason of the message
unchanged; armed or not, the call leaves in rate what the classification
recorded: the old rate when no condition matches, and otherwise a rate the
highest-ranked matching condition looks at and that lies in its interval, so
that after a call that arms on a match, rate is a value that qualified the new
dst. -/
theorem decision_rate_follows_match (fsm : wlan_ptracker_fsm) (tp : tp_monitor_stats)
    (type : Nat) (hrun : fsm.fsm_thread = true) :
    ((scenes_fsm_decision fsm tp type).event = fsm.event →
      (scenes_fsm_decision fsm tp type).msg.state = fsm.msg.state ∧
      (scenes_fsm_decision fsm tp type).msg.src = fsm.msg.src ∧
      (scenes_fsm_decision fsm tp type).msg.dst = fsm.msg.dst ∧
      (scenes_fsm_decision fsm tp type).msg.reason = fsm.msg.reason) ∧
    (scenes_fsm_decision fsm tp type).msg.rate
      = (scenes_condition_get fsm.conditions tp fsm.msg).2.rate ∧
    ((∀ i, i < FSM_STATE_MAX → ¬ cond_matches (fsm.conditions i) tp) →
      (scenes_fsm_decision fsm tp type).msg.rate = fsm.msg.rate) ∧
    (∀ i, i < FSM_STATE_MAX → cond_matches (fsm.conditions i) tp →
      (∀ k, i < k → k < FSM_STATE_MAX → ¬ cond_matches (fsm.conditions k) tp) →
      in_interval (fsm.conditions i) (scenes_fsm_decision fsm tp type).msg.rate ∧
      candidate_rate (fsm.conditions i) tp (scenes_fsm_decision fsm tp type).msg.rate ∧
      ((scenes_fsm_decision fsm tp type).event = fsm.event + 1 →
        (scenes_fsm_decision fsm tp type).msg.dst = (fsm.conditions i).scene)) := by
  have hrate : (scenes_fsm_decision fsm tp type).msg.rate
      = (scenes_condition_get fsm.conditions tp fsm.msg).2.rate := by
    by_cases harm : decision_arms fsm tp type
    · rw [decision_armed fsm tp type hrun harm]
    · rw [decision_idle fsm tp type hrun harm]
  obtain ⟨hmatch, hnone, _⟩ := condition_get_highest fsm.conditions tp fsm.msg
  refine ⟨?_, hrate, ?_, ?_⟩
  · intro hev
    by_cases harm : decision_arms fsm tp type
    · rw [decision_armed fsm tp type hrun harm] at hev
      simp at hev
    · rw [decision_idle fsm tp type hrun harm]
      exact ⟨condition_get_state _ _ _, condition_get_src _ _ _, condition_get_dst _ _ _,
        condition_get_reason _ _ _⟩
  · intro hall
    rw [hrate, hnone hall]
  · intro i hi hmi hhigh
    obtain ⟨h1, h2, h3, _⟩ := hmatch i hi hmi hhigh
    rw [hrate]
    refine ⟨h3, h2, ?_⟩
    intro hev
    by_cases harm : decision_arms fsm tp type
    · rw [decision_armed fsm tp type hrun harm]
      exact h1
    · rw [decision_idle fsm tp type hrun harm] at hev
      simp at hev

/-- C7, amended, at a concrete call: the first sample of 5000 Kbits/second arms
the step to Web and records the rate 5000000. -/
theorem decision_rate_follows_match_witness :
    fsm_ready.fsm_thread = true ∧
    (scenes_fsm_decision fsm_ready tp_web WLAN_PTRACKER_NOTIFY_TP).msg.rate
      = (scenes_condition_get fsm_ready.conditions tp_web fsm_ready.msg).2.rate ∧
    (scenes_fsm_decision fsm_ready tp_web WLAN_PTRACKER_NOTIFY_TP).msg.rate = 5000000 ∧
    in_interval (fsm_ready.conditions 1)
      (scenes_fsm_decision fsm_ready tp_web WLAN_PTRACKER_NOTIFY_TP).msg.rate :=
  ⟨rfl, (decision_rate_follows_match fsm_ready tp_web WLAN_PTRACKER_NOTIFY_TP rfl).2.1,
    by decide,
    ((decision_rate_follows_match fsm_ready tp_web WLAN_PTRACKER_NOTIFY_TP rfl).2.2.2 1
      (by decide) (by decide) (by
        intro k h1 h2
        have hk : k = 2 ∨ k = 3 ∨ k = 4 := by
          unfold FSM_STATE_MAX WLAN_SCENE_MAX at h2; omega
        rcases hk with rfl | rfl | rfl <;> decide)).1⟩

/-! ## Lemmas on the consumer -/

theorem pwrstates_trace (client : wlan_ptracker_client) (st : dytwt_pwr_state)
    (trace : List dytwt_call) :
    (dytwt_client_twt_pwrstates client st trace).2.1
      = (dytwt_client_twt_pwrstates client st []).2.1 ∧
    ∃ suffix, (dytwt_client_twt_pwrstates client st trace).2.2 = trace ++ suffix ∧
      suffix.countP is_twt_setup = 0 ∧ suffix.countP is_op_setup = 0 ∧
      suffix.countP is_twt_teardown = 0 ∧ suffix.countP is_op_teardown = 0 := by
  rcases client with ⟨_ | ⟨setup, teardown, get_cap, get_pwrstates⟩⟩
  · exact ⟨rfl, [.twt_pwrstates], rfl, rfl, rfl, rfl, rfl⟩
  · cases get_pwrstates with
    | none => exact ⟨rfl, [.twt_pwrstates], rfl, rfl, rfl, rfl, rfl⟩
    | some f =>
      exact ⟨rfl, [.twt_pwrstates, .op_get_pwrstates],
        by simp [dytwt_client_twt_pwrstates], rfl, rfl, rfl, rfl⟩

theorem cap_trace (client : wlan_ptracker_client) (trace : List dytwt_call) :
    (dytwt_client_twt_cap client trace).1 = (dytwt_client_twt_cap client []).1 ∧
    ∃ suffix, (dytwt_client_twt_cap client trace).2 = trace ++ suffix ∧
      suffix.countP is_twt_setup = 0 ∧ suffix.countP is_op_setup = 0 ∧
      suffix.countP is_twt_teardown = 0 ∧ suffix.countP is_op_teardown = 0 := by
  rcases client with ⟨_ | ⟨setup, teardown, get_cap, get_pwrstates⟩⟩
  · exact ⟨rfl, [.twt_cap], rfl, rfl, rfl, rfl, rfl⟩
  · cases get_cap with
    | none => exact ⟨rfl, [.twt_cap], rfl, rfl, rfl, rfl, rfl⟩
    | some r =>
      obtain ⟨ret, param⟩ := r
      by_cases hr : ret ≠ 0
      · exact ⟨by simp [dytwt_client_twt_cap, hr], [.twt_cap, .op_get_cap],
          by simp [dytwt_client_twt_cap, hr], rfl, rfl, rfl, rfl⟩
      · exact ⟨by simp [dytwt_client_twt_cap, hr], [.twt_cap, .op_get_cap],
          by simp [dytwt_client_twt_cap, hr], rfl, rfl, rfl, rfl⟩

theorem setup_trace (client : wlan_ptracker_client) (state : Nat) (trace : List dytwt_call) :
    (dytwt_client_twt_setup client state trace).1 = (dytwt_client_twt_setup client state []).1 ∧
    ∃ suffix, (dytwt_client_twt_setup client state trace).2 = trace ++ suffix ∧
      suffix.countP is_twt_setup = 1 ∧ suffix.countP is_op_setup ≤ 1 ∧
      suffix.countP is_twt_teardown = 0 ∧ suffix.countP is_op_teardown = 0 := by
  rcases client with ⟨_ | ⟨setup, teardown, get_cap, get_pwrstates⟩⟩
  · exact ⟨rfl, [.twt_setup state], rfl, rfl, Nat.zero_le 1, rfl, rfl⟩
  · cases setup with
    | none => exact ⟨rfl, [.twt_setup state], rfl, rfl, Nat.zero_le 1, rfl, rfl⟩
    | some f =>
      by_cases hs : state ≥ WLAN_SCENE_MAX
      · exact ⟨by simp [dytwt_client_twt_setup, hs], [.twt_setup state],
          by simp [dytwt_client_twt_setup, hs], rfl, Nat.zero_le 1, rfl, rfl⟩
      · exact ⟨by simp [dytwt_client_twt_setup, hs],
          [.twt_setup state, .op_setup (dytwt_param state)],
          by simp [dytwt_client_twt_setup, hs], rfl, Nat.le_refl 1, rfl, rfl⟩

theorem history_store_ok (client : wlan_ptracker_client) (dytwt : dytwt_manager)
    (msg : wlan_scene_event) (apply : Bool) (now : Nat) (trace : List dytwt_call)
    (hm : history_manager) (hhm : dytwt.hm = some hm) (hok : history_ok hm) :
    dytwt_mgmt_history_store client dytwt msg apply now trace =
      some ({ dytwt with
          hm := some { hm with
            entries := hm.entries.set hm.cur (dytwt_record client hm msg apply now)
            cur := (hm.cur + 1) % hm.entry_count
            round := if (hm.cur + 1) % hm.entry_count = 0 then hm.round + 1 else hm.round }
          prev := msg.dst },
        (dytwt_client_twt_pwrstates client
          (hm.entries.getD hm.cur dytwt_entry_zero).pwr trace).2.2) := by
  obtain ⟨h1, h2, h3⟩ := hok
  have hne : hm.entry_count ≠ 0 := by omega
  have hlen : hm.cur < hm.entries.length := by omega
  unfold dytwt_mgmt_history_store wlan_ptracker_history_store dytwt_record
  rw [hhm]
  simp only [hne, if_false]
  have hget : ∀ (e : dytwt_entry), (hm.entries.set hm.cur e).getD hm.cur dytwt_entry_zero = e := by
    intro e
    simp [List.getD_eq_getElem?_getD, hlen]
  rw [hget]
  simp only [List.set_set]
  rw [(pwrstates_trace client _ trace).1]

theorem actions_lookup (state : Nat) (h : state < WLAN_SCENE_MAX) :
    ∃ act, dytwt_actions[state]? = some act := by
  have hlen : state < dytwt_actions.length := h
  exact ⟨dytwt_actions[state], List.getElem?_eq_getElem hlen⟩

theorem reason_lookup (reason : Nat) (h : reason < WLAN_PTRACKER_NOTIFY_MAX) :
    ∃ str, reason2str[reason]? = some str := by
  have hlen : reason < reason2str.length := h
  exact ⟨reason2str[reason], List.getElem?_eq_getElem hlen⟩

/-- The outcome of `dytwt_scene_change_handler` with a log in place and both
lookups in bounds: the return code, the value of `apply`, and the trace. -/
theorem scene_change_handler_eq (client : wlan_ptracker_client) (dytwt : dytwt_manager)
    (msg : wlan_scene_event) (now : Nat) (trace : List dytwt_call) (hm : history_manager)
    (hhm : dytwt.hm = some hm) (hok : history_ok hm)
    (hdst : msg.dst < WLAN_SCENE_MAX) (hreason : msg.reason < WLAN_PTRACKER_NOTIFY_MAX) :
    ∃ (ret : Int) (apply : Bool) (trace2 suffix : List dytwt_call),
      dytwt_scene_change_handler client dytwt msg now trace =
        some (ret, { dytwt with
            hm := some { hm with
              entries := hm.entries.set hm.cur (dytwt_record client hm msg apply now)
              cur := (hm.cur + 1) % hm.entry_count
              round := if (hm.cur + 1) % hm.entry_count = 0 then hm.round + 1 else hm.round }
            prev := msg.dst }, trace2) ∧
      (apply = true ↔ handler_applies client dytwt msg) ∧
      (ret ≠ 0 → apply = false) ∧
      trace2 = trace ++ suffix ∧
      suffix.countP is_twt_setup ≤ 1 ∧ suffix.countP is_op_setup ≤ 1 ∧
      suffix.countP is_twt_teardown = 0 ∧ suffix.countP is_op_teardown = 0 := by
  obtain ⟨act, hact⟩ := actions_lookup msg.dst hdst
  obtain ⟨str, hstr⟩ := reason_lookup msg.reason hreason
  unfold dytwt_scene_change_handler
  by_cases hflag : dytwt.feature_flag &&& BIT FEATURE_FLAG_TWT = 0
  · rw [if_pos hflag, history_store_ok client dytwt msg false now trace hm hhm hok, Option.map_some']
    obtain ⟨_, sfx, hs, c1, c2, c3, c4⟩ := pwrstates_trace client
      (hm.entries.getD hm.cur dytwt_entry_zero).pwr trace
    refine ⟨0, false, _, sfx, rfl, ?_, fun _ => rfl, hs, by omega, by omega, c3, c4⟩
    constructor
    · intro h; exact absurd h (by simp)
    · intro hp; exact absurd hflag hp.1
  · rw [if_neg hflag]
    obtain ⟨hcap1, csfx, hcs, d1, d2, d3, d4⟩ := cap_trace client trace
    by_cases hcap : (dytwt_client_twt_cap client trace).1 = false
    · simp only [hcap, if_true]
      rw [history_store_ok client dytwt msg false now _ hm hhm hok, Option.map_some']
      obtain ⟨_, sfx, hs, c1, c2, c3, c4⟩ := pwrstates_trace client
        (hm.entries.getD hm.cur dytwt_entry_zero).pwr (dytwt_client_twt_cap client trace).2
      refine ⟨0, false, _, csfx ++ sfx, rfl, ?_, fun _ => rfl, ?_, ?_, ?_, ?_, ?_⟩
      · constructor
        · intro h; exact absurd h (by simp)
        · intro hp
          have := hp.2.1
          rw [← hcap1, hcap] at this
          exact absurd this (by simp)
      · rw [hs, hcs, List.append_assoc]
      · rw [List.countP_append]; omega
      · rw [List.countP_append]; omega
      · rw [List.countP_append]; omega
      · rw [List.countP_append]; omega
    · have hcapT : (dytwt_client_twt_cap client trace).1 = true := by
        cases h : (dytwt_client_twt_cap client trace).1 with
        | false => exact absurd h hcap
        | true => rfl
      have hcapt : (dytwt_client_twt_cap client []).1 = true := by
        rw [← hcap1]; exact hcapT
      simp only [hcapT, Bool.true_eq_false, if_false, hact, hstr]
      by_cases hsetup : act.action = TWT_ACTION_SETUP
      · rw [if_pos hsetup]
        obtain ⟨hret, ssfx, hss, e1, e2, e3, e4⟩ :=
          setup_trace client msg.dst (dytwt_client_twt_cap client trace).2
        rw [history_store_ok client dytwt msg _ now _ hm hhm hok, Option.map_some']
        obtain ⟨_, sfx, hs, c1, c2, c3, c4⟩ := pwrstates_trace client
          (hm.entries.getD hm.cur dytwt_entry_zero).pwr
          (dytwt_client_twt_setup client msg.dst (dytwt_client_twt_cap client trace).2).2
        refine ⟨_, _, _, csfx ++ ssfx ++ sfx, rfl, ?_, ?_, ?_, ?_, ?_, ?_, ?_⟩
        · constructor
          · intro h
            refine ⟨hflag, hcapt, act, hact, Or.inr ?_⟩
            rw [← hret]
            by_contra hne
            simp [hne] at h
          · intro hp
            obtain ⟨_, _, act2, hact2, hor⟩ := hp
            rw [hact] at hact2
            have hEq : act = act2 := Option.some.inj hact2
            subst hEq
            rcases hor with hne | hz
            · exact absurd hsetup hne
            · rw [← hret] at hz
              simp [hz]
        · intro hne
          simp [hne]
        · rw [hs, hss, hcs, List.append_assoc, List.append_assoc, List.append_assoc]
        · rw [List.countP_append, List.countP_append]; omega
        · rw [List.countP_append, List.countP_append]; omega
        · rw [List.countP_append, List.countP_append]; omega
        · rw [List.countP_append, List.countP_append]; omega
      · rw [if_neg hsetup]
        rw [history_store_ok client dytwt msg true now _ hm hhm hok, Option.map_some']
        obtain ⟨_, sfx, hs, c1, c2, c3, c4⟩ := pwrstates_trace client
          (hm.entries.getD hm.cur dytwt_entry_zero).pwr (dytwt_client_twt_cap client trace).2
        refine ⟨0, true, _, csfx ++ sfx, rfl, ?_, ?_, ?_, ?_, ?_, ?_, ?_⟩
        · constructor
          · intro _
            exact ⟨hflag, hcapt, act, hact, Or.inl hsetup⟩
          · intro _; rfl
        · intro hne; exact absurd rfl hne
        · rw [hs, hcs, List.append_assoc]
        · rw [List.countP_append]; omega
        · rw [List.countP_append]; omega
        · rw [List.countP_append]; omega
        · rw [List.countP_append]; omega

/-! ## The apply test on the client's own operations -/

theorem cap_true_iff (client : wlan_ptracker_client) (trace : List dytwt_call) :
    (dytwt_client_twt_cap client trace).1 = true ↔
      ∃ ops cap, client.dytwt_ops = some ops ∧ ops.get_cap = some (0, cap) ∧
        cap.device_cap ≠ 0 ∧ cap.peer_cap ≠ 0 := by
  rcases client with ⟨_ | ⟨setup, teardown, get_cap, get_pwrstates⟩⟩
  · simp [dytwt_client_twt_cap]
  · cases get_cap with
    | none => simp [dytwt_client_twt_cap]
    | some r =>
      obtain ⟨ret, param⟩ := r
      by_cases hr : ret = 0
      · subst hr
        constructor
        · intro h
          simp [dytwt_client_twt_cap] at h
          exact ⟨_, param, rfl, rfl, h.2, h.1⟩
        · intro ⟨ops, cap, hops, hcap, hd, hp⟩
          simp only [Option.some.injEq] at hops
          subst hops
          simp only [Option.some.injEq, Prod.mk.injEq, true_and] at hcap
          subst hcap
          simp [dytwt_client_twt_cap, hd, hp]
      · constructor
        · intro h
          simp [dytwt_client_twt_cap, hr] at h
        · intro ⟨ops, cap, hops, hcap, _, _⟩
          simp only [Option.some.injEq] at hops
          subst hops
          simp only [Option.some.injEq, Prod.mk.injEq] at hcap
          exact absurd hcap.1 hr

theorem lookup_lt (state : Nat) (act : dytwt_scene_action)
    (h : dytwt_actions[state]? = some act) : state < WLAN_SCENE_MAX := by
  obtain ⟨hlt, _⟩ := List.getElem?_eq_some.mp h
  exact hlt

theorem lookup_param (state : Nat) (act : dytwt_scene_action)
    (h : dytwt_actions[state]? = some act) : dytwt_param state = act.param := by
  unfold dytwt_param
  rw [h]

theorem lookup_action (state : Nat) (act : dytwt_scene_action)
    (h : dytwt_actions[state]? = some act) :
    (act.action = TWT_ACTION_SETUP ∨ act.action = TWT_ACTION_TEARDOWN) ∧
    (act.action = TWT_ACTION_TEARDOWN ↔ act.action ≠ TWT_ACTION_SETUP) := by
  have hlt := lookup_lt state act h
  have hcases : state = 0 ∨ state = 1 ∨ state = 2 ∨ state = 3 ∨ state = 4 := by
    unfold WLAN_SCENE_MAX at hlt; omega
  rcases hcases with rfl | rfl | rfl | rfl | rfl <;>
    (simp only [dytwt_actions, List.getElem?_cons_zero, List.getElem?_cons_succ,
       Option.some.injEq] at h
     subst h
     decide)

theorem setup_zero_iff (client : wlan_ptracker_client) (state : Nat)
    (trace : List dytwt_call) (act : dytwt_scene_action)
    (hact : dytwt_actions[state]? = some act) :
    (dytwt_client_twt_setup client state trace).1 = 0 ↔
      ∃ ops setup, client.dytwt_ops = some ops ∧ ops.setup = some setup ∧
        setup act.param = 0 := by
  have hlt : ¬ state ≥ WLAN_SCENE_MAX := Nat.not_le.mpr (lookup_lt state act hact)
  have hparam := lookup_param state act hact
  have hinval : ¬ (-EINVAL = 0) := by decide
  rcases client with ⟨_ | ⟨setup, teardown, get_cap, get_pwrstates⟩⟩
  · simp [dytwt_client_twt_setup, hinval]
  · cases setup with
    | none => simp [dytwt_client_twt_setup, hinval]
    | some f =>
      simp [dytwt_client_twt_setup, hlt, hparam]

theorem policy_applied_iff (client : wlan_ptracker_client) (dytwt : dytwt_manager)
    (msg : wlan_scene_event) :
    handler_applies client dytwt msg ↔ policy_applied client dytwt msg := by
  unfold handler_applies policy_applied
  constructor
  · intro ⟨hflag, hcap, act, hact, hor⟩
    obtain ⟨ops, cap, hops, hgc, hd, hp⟩ := (cap_true_iff client []).mp hcap
    refine ⟨hflag, ops, cap, act, hops, hgc, hd, hp, hact, ?_⟩
    obtain ⟨htwo, htd⟩ := lookup_action msg.dst act hact
    by_cases hs : act.action = TWT_ACTION_SETUP
    · rcases hor with hne | hz
      · exact absurd hs hne
      · obtain ⟨ops2, setup, hops2, hsu, hret⟩ :=
          (setup_zero_iff client msg.dst [] act hact).mp hz
        rw [hops] at hops2
        have hEq : ops = ops2 := Option.some.inj hops2
        subst hEq
        exact Or.inr ⟨hs, setup, hsu, hret⟩
    · exact Or.inl (htd.mpr hs)
  · intro ⟨hflag, ops, cap, act, hops, hgc, hd, hp, hact, hor⟩
    refine ⟨hflag, (cap_true_iff client []).mpr ⟨ops, cap, hops, hgc, hd, hp⟩, act, hact, ?_⟩
    obtain ⟨_, htd⟩ := lookup_action msg.dst act hact
    rcases hor with ht | ⟨_, setup, hsu, hret⟩
    · exact Or.inl (htd.mp ht)
    · exact Or.inr ((setup_zero_iff client msg.dst [] act hact).mpr ⟨ops, setup, hops, hsu, hret⟩)

/-! ## C8: the history record of a scene change -/

/-- C8, at the input where the code departs from it: a sample of
2147483648 + 2147483653 bits/second arms the step to Throughput with rate
4294967301 in the message. Handled with a capable client and a fresh log,
`dytwt_scene_change_handler` stores one record with discriminant dst, the
message's reason and apply = true, and moves prev to dst, as the claim says;
but the rate of the record is 5, the low 32 bits, not the message's rate. -/
theorem history_rate_truncated :
    msg_fast.dst = WLAN_SCENE_TPUT ∧ msg_fast.rate = 4294967301 ∧
    (dytwt_scene_change_handler client_ok (dytwt_init true true) msg_fast 7 []).map
        (fun r => r.2.1.hm.map (fun hm => (hm.entries.getD 0 dytwt_entry_zero).rate))
      = some (some 5) ∧
    (5 : Nat) ≠ msg_fast.rate ∧
    (dytwt_scene_change_handler client_ok (dytwt_init true true) msg_fast 7 []).map
        (fun r => (r.2.1.prev, r.2.1.hm.map (fun hm =>
          ((hm.entries.getD 0 dytwt_entry_zero).base.state,
           (hm.entries.getD 0 dytwt_entry_zero).reason,
           (hm.entries.getD 0 dytwt_entry_zero).apply, hm.cur))))
      = some (msg_fast.dst, some (msg_fast.dst, msg_fast.reason, true, 1)) := by
  decide

/-- The rest of what `dytwt_scene_change_handler` does, for every client,
manager with a log, and message with dst and reason in range: it writes
exactly one record, in the slot at the cursor, and advances the cursor; the
record has discriminant dst and the message's reason, and its rate is the
message's rate whenever that is below 2^32 (its low 32 bits in general); prev
becomes dst; apply is true exactly when the policy is applied (feature flag
on, capability reported and present on device and peer, and the scene's action
is teardown or its setup returns 0), so a non-zero return gives apply = false;
and the setup helper and the client's setup operation are each called at most
once. -/
theorem scene_change_handler_records (client : wlan_ptracker_client) (dytwt : dytwt_manager)
    (msg : wlan_scene_event) (now : Nat) (trace : List dytwt_call) (hm : history_manager)
    (hhm : dytwt.hm = some hm) (hok : history_ok hm)
    (hdst : msg.dst < WLAN_SCENE_MAX) (hreason : msg.reason < WLAN_PTRACKER_NOTIFY_MAX) :
    ∃ (ret : Int) (dytwt2 : dytwt_manager) (trace2 : List dytwt_call)
      (hm2 : history_manager) (entry : dytwt_entry),
      dytwt_scene_change_handler client dytwt msg now trace = some (ret, dytwt2, trace2) ∧
      dytwt2.hm = some hm2 ∧
      hm2.entries = hm.entries.set hm.cur entry ∧
      hm2.cur = (hm.cur + 1) % hm.entry_count ∧
      hm2.entry_count = hm.entry_count ∧
      entry.base.state = msg.dst ∧ entry.base.valid = true ∧
      entry.reason = msg.reason ∧
      entry.rate = msg.rate % 4294967296 ∧
      (msg.rate < 4294967296 → entry.rate = msg.rate) ∧
      dytwt2.prev = msg.dst ∧
      (entry.apply = true ↔ policy_applied client dytwt msg) ∧
      (ret ≠ 0 → entry.apply = false) ∧
      trace2.countP is_twt_setup ≤ trace.countP is_twt_setup + 1 ∧
      trace2.countP is_op_setup ≤ trace.countP is_op_setup + 1 := by
  obtain ⟨ret, apply, trace2, suffix, heq, happ, hret, htr, c1, c2, _, _⟩ :=
    scene_change_handler_eq client dytwt msg now trace hm hhm hok hdst hreason
  refine ⟨ret, _, trace2, _, dytwt_record client hm msg apply now, heq, rfl, rfl, rfl, rfl,
    rfl, rfl, rfl, rfl, ?_, rfl, happ.trans (policy_applied_iff client dytwt msg), hret, ?_, ?_⟩
  · intro hlt
    show msg.rate % 4294967296 = msg.rate
    exact Nat.mod_eq_of_lt hlt
  · rw [htr, List.countP_append]; omega
  · rw [htr, List.countP_append]; omega

/-- The handler at concrete events: a peer that rejects the setup for Web
gives return code -1 and apply = false, with the record stored and prev moved
to Web; a peer without the capability gives apply = false without any setup;
a capable client gives apply = true. -/
theorem scene_change_handler_records_witness :
    (dytwt_init true true).hm = some hm_fresh ∧ history_ok hm_fresh ∧
    msg_web.dst < WLAN_SCENE_MAX ∧ msg_web.reason < WLAN_PTRACKER_NOTIFY_MAX ∧
    (∃ (ret : Int) (dytwt2 : dytwt_manager) (trace2 : List dytwt_call),
      dytwt_scene_change_handler client_reject (dytwt_init true true) msg_web 7 []
        = some (ret, dytwt2, trace2) ∧ dytwt2.prev = msg_web.dst) ∧
    (dytwt_scene_change_handler client_reject (dytwt_init true true) msg_web 7 []).map
        (fun r => (r.1, r.2.1.hm.map (fun hm => (hm.entries.getD 0 dytwt_entry_zero).apply)))
      = some (-1, some false) ∧
    (dytwt_scene_change_handler client_no_peer (dytwt_init true true) msg_web 7 []).map
        (fun r => (r.1, r.2.1.hm.map (fun hm => (hm.entries.getD 0 dytwt_entry_zero).apply),
          r.2.2.countP is_twt_setup))
      = some (0, some false, 0) ∧
    (dytwt_scene_change_handler client_ok (dytwt_init true true) msg_web 7 []).map
        (fun r => (r.1, r.2.1.hm.map (fun hm => (hm.entries.getD 0 dytwt_entry_zero).apply)))
      = some (0, some true) :=
  ⟨rfl, by decide, by decide, by decide,
    (let ⟨ret, dytwt2, trace2, _, _, h1, _, _, _, _, _, _, _, _, _, h2, _⟩ :=
      scene_change_handler_records client_reject (dytwt_init true true) msg_web 7 [] hm_fresh
        rfl (by decide) (by decide) (by decide)
     ⟨ret, dytwt2, trace2, h1, h2⟩),
    by decide, by decide, by decide⟩

/-! ## C10: the teardown of the prepare phase -/

/-- C9: one wake of `fsm_thread` leaves the same classifier whatever the
subscribers do and whatever code the dispatch returns: for any two dispatch
functions the resulting phase flag, committed state and whole classifier are
equal; the wake makes exactly one dispatch, flips the flag, and on the commit
wake sets the committed state to dst. On the consumer's side
`dytwt_notifier_handler` returns `NOTIFY_OK` for every event, also when the
scene-change handler returns the non-zero code of a failed setup. -/
theorem fsm_thread_ignores_outcome {σ τ : Type}
    (chain1 : Nat → wlan_scene_event → σ → σ × Int)
    (chain2 : Nat → wlan_scene_event → τ → τ × Int)
    (fsm : wlan_ptracker_fsm) (env1 : σ) (env2 : τ) :
    (fsm_thread_iter chain1 false fsm env1).map Prod.fst
      = (fsm_thread_iter chain2 false fsm env2).map Prod.fst ∧
    (fsm.event ≠ 0 →
      ∃ fsm2, fsm_thread_iter chain1 false fsm env1 =
          some (fsm2, (chain1 (if fsm.confirm = true then WLAN_PTRACKER_NOTIFY_SCENE_CHANGE
            else WLAN_PTRACKER_NOTIFY_SCENE_CHANGE_PREPARE) fsm.msg env1).1) ∧
        fsm2.confirm = !fsm.confirm ∧
        fsm2.msg.state = (if fsm.confirm = true then fsm.msg.dst else fsm.msg.state) ∧
        fsm2.event = fsm.event - 1) ∧
    (∀ (client : Option wlan_ptracker_client) (dytwt : dytwt_manager) (msg : wlan_scene_event)
        (now event : Nat) (trace : List dytwt_call) (r : Int × dytwt_manager × List dytwt_call),
      dytwt_notifier_handler client dytwt msg now event trace = some r → r.1 = NOTIFY_OK) ∧
    (∀ (client : wlan_ptracker_client) (dytwt : dytwt_manager) (msg : wlan_scene_event)
        (now : Nat) (trace : List dytwt_call) (r : Int × dytwt_manager × List dytwt_call),
      dytwt_scene_change_handler client dytwt msg now trace = some r →
      dytwt_notifier_handler (some client) dytwt msg now WLAN_PTRACKER_NOTIFY_SCENE_CHANGE trace
        = some (NOTIFY_OK, r.2)) := by
  refine ⟨?_, ?_, ?_, ?_⟩
  · by_cases hev : fsm.event = 0
    · rw [wake_blocked chain1 fsm env1 hev, wake_blocked chain2 fsm env2 hev]
      rfl
    · rw [wake_eq chain1 fsm env1 hev, wake_eq chain2 fsm env2 hev]
      cases hc : fsm.confirm <;> simp
  · intro hev
    rw [wake_eq chain1 fsm env1 hev]
    cases hc : fsm.confirm with
    | true =>
      refine ⟨{ fsm with
        event := fsm.event - 1
        msg := { fsm.msg with state := fsm.msg.dst }
        confirm := false }, ?_, rfl, ?_, rfl⟩
      · simp
      · simp
    | false =>
      refine ⟨{ fsm with event := fsm.event - 1, confirm := true }, ?_, rfl, ?_, rfl⟩
      · simp
      · simp
  · intro client dytwt msg now event trace r h
    unfold dytwt_notifier_handler at h
    cases client with
    | none =>
      simp only [Option.some.injEq] at h
      rw [← h]
    | some c =>
      simp only at h
      by_cases h1 : event = WLAN_PTRACKER_NOTIFY_SCENE_CHANGE
      · rw [if_pos h1] at h
        cases hh : dytwt_scene_change_handler c dytwt msg now trace with
        | none => rw [hh] at h; exact Option.noConfusion h
        | some q =>
          rw [hh] at h
          simp only [Option.some.injEq] at h
          rw [← h]
      · rw [if_neg h1] at h
        by_cases h2 : event = WLAN_PTRACKER_NOTIFY_SCENE_CHANGE_PREPARE
        · rw [if_pos h2] at h
          simp only [Option.some.injEq] at h
          rw [← h]
        · rw [if_neg h2] at h
          simp only [Option.some.injEq] at h
          rw [← h]
  · intro client dytwt msg now trace r h
    unfold dytwt_notifier_handler
    simp [h]

/-! ## Lemmas on the power report -/

theorem to_int_small (a : Nat) (h : a < 2147483648) : to_int a = (a : Int) := by
  unfold to_int wrap_s32
  omega

theorem get_pwr_eq (asleep awake : Nat) :
    dytwt_record_get_pwr asleep awake =
      some (add64 asleep awake / 100 / 10,
        if add64 asleep awake / 100 = 0 then 0
        else to_int (asleep / (add64 asleep awake / 100))) := by
  unfold dytwt_record_get_pwr div64
  by_cases h : add64 asleep awake / 100 = 0
  · simp [h]
  · simp [h]

theorem percent_le (asleep awake : Nat) (hpos : 0 < (asleep + awake) / 100) :
    asleep / ((asleep + awake) / 100) ≤ 100 + 99 / ((asleep + awake) / 100) := by
  have hle : asleep ≤ 99 + 100 * ((asleep + awake) / 100) := by omega
  calc asleep / ((asleep + awake) / 100)
      ≤ (99 + 100 * ((asleep + awake) / 100)) / ((asleep + awake) / 100) :=
        Nat.div_le_div_right hle
    _ = 99 / ((asleep + awake) / 100) + 100 := Nat.add_mul_div_right 99 100 hpos
    _ = 100 + 99 / ((asleep + awake) / 100) := Nat.add_comm _ _

/-! ## C12: `dytwt_record_get_pwr` -/

/-- C12: for all asleep and awake with asleep + awake below 2^64,
`dytwt_record_get_pwr` has a result (its division never has a zero divisor),
the total is floor((asleep + awake) / 1000), the percent is 0 when
asleep + awake is below 100 and floor(asleep / floor((asleep + awake) / 100))
otherwise, which is at most 100 + floor(99 / floor((asleep + awake) / 100)):
the percent is at most 100 whenever asleep + awake is at least 10000, and it
never exceeds 199. -/
theorem record_get_pwr_bounds (asleep awake : Nat)
    (h : asleep + awake < 18446744073709551616) :
    ∃ (total : Nat) (percent : Int),
      dytwt_record_get_pwr asleep awake = some (total, percent) ∧
      total = (asleep + awake) / 1000 ∧
      (asleep + awake < 100 → percent = 0) ∧
      (100 ≤ asleep + awake →
        percent = ((asleep / ((asleep + awake) / 100) : Nat) : Int) ∧
        asleep / ((asleep + awake) / 100) ≤ 100 + 99 / ((asleep + awake) / 100)) ∧
      (10000 ≤ asleep + awake → percent ≤ 100) ∧
      0 ≤ percent ∧ percent ≤ 199 := by
  have hadd : add64 asleep awake = asleep + awake := by
    unfold add64
    exact Nat.mod_eq_of_lt h
  refine ⟨_, _, get_pwr_eq asleep awake, ?_, ?_, ?_, ?_, ?_⟩
  · rw [hadd]; omega
  · intro hlt
    rw [hadd, if_pos (by omega)]
  · intro hge
    have hpos : 0 < (asleep + awake) / 100 := by omega
    have hb := percent_le asleep awake hpos
    have h99 : 99 / ((asleep + awake) / 100) ≤ 99 := Nat.div_le_self _ _
    rw [hadd, if_neg (by omega), to_int_small _ (by omega)]
    exact ⟨rfl, hb⟩
  · intro hge
    have hpos : 0 < (asleep + awake) / 100 := by omega
    have hb := percent_le asleep awake hpos
    have h0 : 99 / ((asleep + awake) / 100) = 0 := Nat.div_eq_of_lt (by omega)
    rw [hadd, if_neg (by omega), to_int_small _ (by omega)]
    omega
  · rw [hadd]
    by_cases hz : (asleep + awake) / 100 = 0
    · rw [if_pos hz]
      omega
    · have hpos : 0 < (asleep + awake) / 100 := by omega
      have hb := percent_le asleep awake hpos
      have h99 : 99 / ((asleep + awake) / 100) ≤ 99 := Nat.div_le_self _ _
      rw [if_neg hz, to_int_small _ (by omega)]
      generalize asleep / ((asleep + awake) / 100) = q at hb
      generalize 99 / ((asleep + awake) / 100) = r at hb h99
      omega

/-- C12 at concrete counters: 199 units asleep and none awake give the
largest percent, 199; 9000 asleep and 1000 awake give 90 percent of 10 ms. -/
theorem record_get_pwr_bounds_witness :
    (199 + 0 < 18446744073709551616) ∧
    dytwt_record_get_pwr 199 0 = some (0, 199) ∧
    dytwt_record_get_pwr 9000 1000 = some (10, 90) ∧
    (∃ (total : Nat) (percent : Int),
      dytwt_record_get_pwr 199 0 = some (total, percent) ∧ percent ≤ 199) :=
  ⟨by decide, by decide, by decide,
    (let ⟨total, percent, h1, _, _, _, _, _, h2⟩ := record_get_pwr_bounds 199 0 (by decide)
     ⟨total, percent, h1, h2⟩)⟩

/-! ## C11: the values of one line of the report -/

/-- C11 fails as stated: the record `entry_awake` follows `entry_early` with
counters that are not smaller (awake 5000 after 1000, asleep 9000 after 9000).
The differences are 4000 awake and 0 asleep, whose time and percent are 4 and
0; the function reports 13 and 69, those of 4000 awake and the 9000 asleep of
the current record. -/
theorem equal_counter_reports_cumulative :
    entry_awake.pwr.awake ≥ entry_early.pwr.awake ∧
    entry_awake.pwr.asleep ≥ entry_early.pwr.asleep ∧
    (dytwt_record_priv_read entry_early (some entry_awake)).map
        (fun line => (line.period_time, line.period_percent)) = some (13, 69) ∧
    dytwt_record_get_pwr (entry_awake.pwr.asleep - entry_early.pwr.asleep)
        (entry_awake.pwr.awake - entry_early.pwr.awake) = some (4, 0) ∧
    dytwt_record_get_pwr entry_early.pwr.asleep
        (entry_awake.pwr.awake - entry_early.pwr.awake) = some (13, 69) := by
  decide

/-- C11, amended: for every record cur with a reason in range,
`dytwt_record_priv_read` reports the cumulative time and percent that
`dytwt_record_get_pwr` computes from cur's own asleep and awake counters; when
a next record is present and both its counters are strictly greater than cur's,
the period time and percent are those of the differences; in general each
counter of next that is not greater than cur's is replaced by cur's own counter
instead of a difference; when there is no next record, the period time and the
period percent are both 0. The line also carries cur's apply flag, the name of
its reason and its rate. -/
theorem record_priv_read_values (c : dytwt_entry) (n : Option dytwt_entry)
    (hreason : c.reason < WLAN_PTRACKER_NOTIFY_MAX) :
    ∃ line, dytwt_record_priv_read c n = some line ∧
      dytwt_record_get_pwr c.pwr.asleep c.pwr.awake
        = some (line.total_time, line.total_percent) ∧
      (n = none → line.period_time = 0 ∧ line.period_percent = 0) ∧
      (∀ nx, n = some nx → nx.pwr.awake > c.pwr.awake → nx.pwr.asleep > c.pwr.asleep →
        dytwt_record_get_pwr (nx.pwr.asleep - c.pwr.asleep) (nx.pwr.awake - c.pwr.awake)
          = some (line.period_time, line.period_percent)) ∧
      (∀ nx, n = some nx →
        dytwt_record_get_pwr
            (if nx.pwr.asleep > c.pwr.asleep then nx.pwr.asleep - c.pwr.asleep
              else c.pwr.asleep)
            (if nx.pwr.awake > c.pwr.awake then nx.pwr.awake - c.pwr.awake else c.pwr.awake)
          = some (line.period_time, line.period_percent)) ∧
      line.apply = c.apply ∧ reason2str[c.reason]? = some line.reason ∧
      line.rate = to_int c.rate := by
  obtain ⟨str, hstr⟩ := reason_lookup c.reason hreason
  cases n with
  | none =>
    refine ⟨{ apply := c.apply, period_time := 0,
              total_time := add64 c.pwr.asleep c.pwr.awake / 100 / 10,
              period_percent := 0,
              total_percent := if add64 c.pwr.asleep c.pwr.awake / 100 = 0 then 0
                else to_int (c.pwr.asleep / (add64 c.pwr.asleep c.pwr.awake / 100)),
              reason := str, rate := to_int c.rate }, ?_, get_pwr_eq _ _, ?_, ?_, ?_,
            rfl, hstr, rfl⟩
    · unfold dytwt_record_priv_read
      rw [get_pwr_eq]
      simp only [hstr]
    · intro _; exact ⟨rfl, rfl⟩
    · intro nx hn; exact Option.noConfusion hn
    · intro nx hn; exact Option.noConfusion hn
  | some nx =>
    have hfall : dytwt_record_priv_read c (some nx) =
        some { apply := c.apply,
               period_time := add64
                 (if nx.pwr.asleep > c.pwr.asleep then nx.pwr.asleep - c.pwr.asleep
                   else c.pwr.asleep)
                 (if nx.pwr.awake > c.pwr.awake then nx.pwr.awake - c.pwr.awake
                   else c.pwr.awake) / 100 / 10,
               total_time := add64 c.pwr.asleep c.pwr.awake / 100 / 10,
               period_percent :=
                 if add64
                   (if nx.pwr.asleep > c.pwr.asleep then nx.pwr.asleep - c.pwr.asleep
                     else c.pwr.asleep)
                   (if nx.pwr.awake > c.pwr.awake then nx.pwr.awake - c.pwr.awake
                     else c.pwr.awake) / 100 = 0 then 0
                 else to_int
                   ((if nx.pwr.asleep > c.pwr.asleep then nx.pwr.asleep - c.pwr.asleep
                     else c.pwr.asleep) /
                   (add64
                     (if nx.pwr.asleep > c.pwr.asleep then nx.pwr.asleep - c.pwr.asleep
                       else c.pwr.asleep)
                     (if nx.pwr.awake > c.pwr.awake then nx.pwr.awake - c.pwr.awake
                       else c.pwr.awake) / 100)),
               total_percent := if add64 c.pwr.asleep c.pwr.awake / 100 = 0 then 0
                 else to_int (c.pwr.asleep / (add64 c.pwr.asleep c.pwr.awake / 100)),
               reason := str, rate := to_int c.rate } := by
      unfold dytwt_record_priv_read
      rw [get_pwr_eq]
      simp only [hstr, get_pwr_eq]
    refine ⟨_, hfall, get_pwr_eq _ _, ?_, ?_, ?_, rfl, hstr, rfl⟩
    · intro hn; exact Option.noConfusion hn
    · intro nx2 hn h1 h2
      have hEq : nx = nx2 := Option.some.inj hn
      subst hEq
      have := get_pwr_eq (nx.pwr.asleep - c.pwr.asleep) (nx.pwr.awake - c.pwr.awake)
      rw [this, if_pos h1, if_pos h2]
    · intro nx2 hn
      have hEq : nx = nx2 := Option.some.inj hn
      subst hEq
      exact get_pwr_eq _ _

/-- C11, amended, at concrete records: `entry_later` follows `entry_early`
with both counters greater; the period is that of the differences, 6000 asleep
and 4000 awake. -/
theorem record_priv_read_values_witness :
    entry_early.reason < WLAN_PTRACKER_NOTIFY_MAX ∧
    (∃ line, dytwt_record_priv_read entry_early (some entry_later) = some line ∧
      dytwt_record_get_pwr (entry_later.pwr.asleep - entry_early.pwr.asleep)
          (entry_later.pwr.awake - entry_early.pwr.awake)
        = some (line.period_time, line.period_percent)) ∧
    (dytwt_record_priv_read entry_early (some entry_later)).map
        (fun line => (line.period_time, line.period_percent, line.total_time,
          line.total_percent)) = some (10, 60, 10, 90) ∧
    (dytwt_record_priv_read entry_early none).map
        (fun line => (line.period_time, line.period_percent)) = some (0, 0) :=
  ⟨by decide,
    (let ⟨line, h1, _, _, h2, _⟩ :=
      record_priv_read_values entry_early (some entry_later) (by decide)
     ⟨line, h1, h2 entry_later rfl (by decide) (by decide)⟩),
    by decide, by decide⟩

/-! ## Lemmas on the range of the message -/

theorem builtin_scene_lt (i : Nat) (hi : i < FSM_STATE_MAX) :
    (conditions i).scene < WLAN_SCENE_MAX := by
  have hcases : i = 0 ∨ i = 1 ∨ i = 2 ∨ i = 3 ∨ i = 4 := by
    unfold FSM_STATE_MAX WLAN_SCENE_MAX at hi; omega
  rcases hcases with rfl | rfl | rfl | rfl | rfl <;> decide

theorem condition_get_lt (tp : tp_monitor_stats) (msg : wlan_scene_event)
    (h : msg.state < WLAN_SCENE_MAX) :
    (scenes_condition_get conditions tp msg).1 < WLAN_SCENE_MAX := by
  unfold scenes_condition_get
  cases hs : scenes_condition_scan conditions tp msg FSM_STATE_MAX with
  | none => exact h
  | some r =>
    obtain ⟨i, hi, _, _, hr, _⟩ := scan_some conditions tp msg _ r hs
    show r.1 < WLAN_SCENE_MAX
    rw [hr]
    exact builtin_scene_lt i hi

theorem decision_valid (fsm : wlan_ptracker_fsm) (tp : tp_monitor_stats) (type : Nat)
    (hcond : fsm.conditions = conditions) (hv : msg_valid fsm.msg)
    (htype : type < WLAN_PTRACKER_NOTIFY_MAX) :
    (scenes_fsm_decision fsm tp type).conditions = conditions ∧
    msg_valid (scenes_fsm_decision fsm tp type).msg := by
  obtain ⟨h1, h2, h3, h4⟩ := hv
  cases hrun : fsm.fsm_thread with
  | false =>
    rw [decision_stopped fsm tp type hrun]
    exact ⟨hcond, h1, h2, h3, h4⟩
  | true =>
    by_cases harm : decision_arms fsm tp type
    · rw [decision_armed fsm tp type hrun harm]
      refine ⟨hcond, ?_, h1, ?_, htype⟩
      · show (scenes_condition_get fsm.conditions tp fsm.msg).2.state < WLAN_SCENE_MAX
        rw [condition_get_state]; exact h1
      · show (scenes_condition_get fsm.conditions tp fsm.msg).1 < WLAN_SCENE_MAX
        rw [hcond]; exact condition_get_lt tp fsm.msg h1
    · rw [decision_idle fsm tp type hrun harm]
      refine ⟨hcond, ?_, ?_, ?_, ?_⟩
      · show (scenes_condition_get fsm.conditions tp fsm.msg).2.state < WLAN_SCENE_MAX
        rw [condition_get_state]; exact h1
      · show (scenes_condition_get fsm.conditions tp fsm.msg).2.src < WLAN_SCENE_MAX
        rw [condition_get_src]; exact h2
      · show (scenes_condition_get fsm.conditions tp fsm.msg).2.dst < WLAN_SCENE_MAX
        rw [condition_get_dst]; exact h3
      · show (scenes_condition_get fsm.conditions tp fsm.msg).2.reason
          < WLAN_PTRACKER_NOTIFY_MAX
        rw [condition_get_reason]; exact h4

theorem notifier_valid (fsm : wlan_ptracker_fsm) (tp : tp_monitor_stats) (event : Nat)
    (hcond : fsm.conditions = conditions) (hv : msg_valid fsm.msg) :
    (scene_notifier_handler fsm tp event).1.conditions = conditions ∧
    msg_valid (scene_notifier_handler fsm tp event).1.msg := by
  unfold scene_notifier_handler
  by_cases he : event = WLAN_PTRACKER_NOTIFY_SUSPEND ∨ event = WLAN_PTRACKER_NOTIFY_STA_CHANGE
      ∨ event = WLAN_PTRACKER_NOTIFY_TP
  · rw [if_pos he]
    apply decision_valid fsm tp event hcond hv
    rcases he with h | h | h <;> rw [h] <;> decide
  · rw [if_neg he]
    exact ⟨hcond, hv⟩

theorem core_inv_step (w : fsm_world) (s : core_input) (hinv : core_inv w) :
    core_inv (core_run_step w s) := by
  obtain ⟨hcond, hv, hlog⟩ := hinv
  cases s with
  | notify tp event =>
    obtain ⟨a, b⟩ := notifier_valid w.fsm tp event hcond hv
    exact ⟨a, b, hlog⟩
  | wake =>
    show core_inv (fsm_run_step w .wake)
    by_cases hb : w.fsm.fsm_thread = false ∨ w.fsm.event = 0
    · rw [run_step_wake_blocked w hb]
      exact ⟨hcond, hv, hlog⟩
    · have hth : w.fsm.fsm_thread = true := by
        cases h : w.fsm.fsm_thread with
        | false => exact absurd (Or.inl h) hb
        | true => rfl
      have hev : w.fsm.event ≠ 0 := fun h => hb (Or.inr h)
      obtain ⟨h1, h2, h3, h4⟩ := hv
      cases hc : w.fsm.confirm with
      | true =>
        rw [run_step_wake_commit w hth hev hc]
        refine ⟨hcond, ⟨h3, h2, h3, h4⟩, ?_⟩
        intro r hr
        rcases List.mem_append.mp hr with hold | hnew
        · exact hlog r hold
        · rw [List.mem_singleton] at hnew
          subst hnew
          exact ⟨⟨h1, h2, h3, h4⟩, ⟨h3, h2, h3, h4⟩⟩
      | false =>
        rw [run_step_wake_prepare w hth hev hc]
        refine ⟨hcond, ⟨h1, h2, h3, h4⟩, ?_⟩
        intro r hr
        rcases List.mem_append.mp hr with hold | hnew
        · exact hlog r hold
        · rw [List.mem_singleton] at hnew
          subst hnew
          exact ⟨⟨h1, h2, h3, h4⟩, ⟨h1, h2, h3, h4⟩⟩

theorem core_inv_run (steps : List core_input) : ∀ w : fsm_world, core_inv w →
    core_inv (core_run w steps) := by
  induction steps with
  | nil => intro w h; exact h
  | cons s rest ih =>
    intro w h
    exact ih (core_run_step w s) (core_inv_step w s h)

theorem core_inv_start (fsm : wlan_ptracker_fsm) (register_ret : Int)
    (thread_err : Option Int) (hreason : fsm.msg.reason < WLAN_PTRACKER_NOTIFY_MAX) :
    core_inv (fsm_start fsm register_ret thread_err) := by
  have hidle : WLAN_SCENE_IDLE < WLAN_SCENE_MAX := by decide
  have key : (fsm_start fsm register_ret thread_err).fsm.conditions = conditions ∧
      (fsm_start fsm register_ret thread_err).fsm.msg.state = WLAN_SCENE_IDLE ∧
      (fsm_start fsm register_ret thread_err).fsm.msg.src = WLAN_SCENE_IDLE ∧
      (fsm_start fsm register_ret thread_err).fsm.msg.dst = WLAN_SCENE_IDLE ∧
      (fsm_start fsm register_ret thread_err).fsm.msg.reason = fsm.msg.reason ∧
      (fsm_start fsm register_ret thread_err).log = [] := by
    unfold fsm_start scenes_fsm_init
    by_cases hr : register_ret ≠ 0
    · simp [hr]
    · cases thread_err <;> simp [hr]
  obtain ⟨k1, k2, k3, k4, k5, k6⟩ := key
  refine ⟨k1, ⟨?_, ?_, ?_, ?_⟩, ?_⟩
  · rw [k2]; exact hidle
  · rw [k3]; exact hidle
  · rw [k4]; exact hidle
  · rw [k5]; exact hreason
  · intro r hr
    rw [k6] at hr
    exact absurd hr (List.not_mem_nil r)

/-! ## C13: the lookups of the consumer are in bounds -/

/-- C13: start from `scenes_fsm_init` on a classifier whose reason field is in
range (it is 0 on the zeroed core), with the built-in table, and let events
arrive at `scene_notifier_handler` and the worker wake in any order. Then the
message's state, src and dst are below the scene count and its reason is below
the number of event reasons, in the state reached and in every message a
dispatch has carried; so `dytwt_actions[msg->dst]` and
`reason2str[msg->reason]` are defined, and the scene-change handler of a
consumer with a log has a result on every message dispatched. -/
theorem scene_message_in_bounds (fsm : wlan_ptracker_fsm) (register_ret : Int)
    (thread_err : Option Int) (steps : List core_input)
    (hreason : fsm.msg.reason < WLAN_PTRACKER_NOTIFY_MAX) :
    (core_run (fsm_start fsm register_ret thread_err) steps).fsm.msg.state < WLAN_SCENE_MAX ∧
    (core_run (fsm_start fsm register_ret thread_err) steps).fsm.msg.src < WLAN_SCENE_MAX ∧
    (core_run (fsm_start fsm register_ret thread_err) steps).fsm.msg.dst < WLAN_SCENE_MAX ∧
    (core_run (fsm_start fsm register_ret thread_err) steps).fsm.msg.reason
      < WLAN_PTRACKER_NOTIFY_MAX ∧
    (∃ act, dytwt_actions[(core_run (fsm_start fsm register_ret thread_err) steps).fsm.msg.dst]?
      = some act) ∧
    (∃ str, reason2str[(core_run (fsm_start fsm register_ret thread_err) steps).fsm.msg.reason]?
      = some str) ∧
    (∀ r, r ∈ (core_run (fsm_start fsm register_ret thread_err) steps).log →
      r.seen.state < WLAN_SCENE_MAX ∧ r.seen.src < WLAN_SCENE_MAX ∧
      r.seen.dst < WLAN_SCENE_MAX ∧ r.seen.reason < WLAN_PTRACKER_NOTIFY_MAX ∧
      (∃ act, dytwt_actions[r.seen.dst]? = some act) ∧
      (∃ str, reason2str[r.seen.reason]? = some str) ∧
      (∀ (client : wlan_ptracker_client) (dytwt : dytwt_manager) (now : Nat)
          (trace : List dytwt_call) (hm : history_manager),
        dytwt.hm = some hm → history_ok hm →
        ∃ out, dytwt_scene_change_handler client dytwt r.seen now trace = some out)) := by
  obtain ⟨_, ⟨h1, h2, h3, h4⟩, hlog⟩ :=
    core_inv_run steps _ (core_inv_start fsm register_ret thread_err hreason)
  refine ⟨h1, h2, h3, h4, actions_lookup _ h3, reason_lookup _ h4, ?_⟩
  intro r hr
  obtain ⟨⟨s1, s2, s3, s4⟩, _⟩ := hlog r hr
  refine ⟨s1, s2, s3, s4, actions_lookup _ s3, reason_lookup _ s4, ?_⟩
  intro client dytwt now trace hm hhm hok
  obtain ⟨ret, apply, trace2, _, heq, _⟩ :=
    scene_change_handler_eq client dytwt r.seen now trace hm hhm hok s3 s4
  exact ⟨_, heq⟩

/-- C13 at a concrete run from the zeroed core: a sample, a station change, a
suspend and an event the classifier ignores, with the wakes in between. -/
theorem scene_message_in_bounds_witness :
    fsm_zero.msg.reason < WLAN_PTRACKER_NOTIFY_MAX ∧
    (core_run (fsm_start fsm_zero 0 none) steps_driver).fsm.msg.dst < WLAN_SCENE_MAX ∧
    (core_run (fsm_start fsm_zero 0 none) steps_driver).fsm.msg.reason
      < WLAN_PTRACKER_NOTIFY_MAX ∧
    (core_run (fsm_start fsm_zero 0 none) steps_driver).log.map
        (fun r => (r.event, r.seen.dst, r.seen.reason))
      = [(WLAN_PTRACKER_NOTIFY_SCENE_CHANGE, WLAN_SCENE_WEB, WLAN_PTRACKER_NOTIFY_TP),
         (WLAN_PTRACKER_NOTIFY_SCENE_CHANGE_PREPARE, WLAN_SCENE_YOUTUBE,
           WLAN_PTRACKER_NOTIFY_STA_CHANGE),
         (WLAN_PTRACKER_NOTIFY_SCENE_CHANGE, WLAN_SCENE_IDLE, WLAN_PTRACKER_NOTIFY_SUSPEND)] :=
  ⟨by decide,
    (scene_message_in_bounds fsm_zero 0 none steps_driver (by decide)).2.2.1,
    (scene_message_in_bounds fsm_zero 0 none steps_driver (by decide)).2.2.2.1,
    by decide⟩

end WlanPtracker
